import Mathlib

/-!
# HugeStressTest: a verification development for `main.cpp`

The program starts a CPU-load thread and a RAM-load thread, then sets up a
fullscreen OpenGL window on the main thread and draws a quad with an expensive
fragment shader until the window is closed.

The embedding is shallow:

* every thread is a step function on an explicit state which also returns the
  list of observable effects (`Event`) of the step;
* everything the code cannot control (results of GLFW / GLEW / GL calls, whether
  an allocation succeeds, how far a worker has run when a store of the main
  thread becomes visible to it) is a field of an environment record;
* `std::thread::join` blocks until the joined thread function has returned, so
  `main` is run with a step budget for the joined worker and reports
  `Outcome.joinPending` when the worker has not returned within the budget;
* text written to `std::cerr` and the info logs of the driver are byte strings;
* the frames on the screen are obtained by running a model of the GL calls the
  program makes over the trace of `main`: a draw call reads the program in
  use, the vertex data and the window size from the GL state;
* floating-point arithmetic is not interpreted: the fragment shader is written
  over an arbitrary carrier with uninterpreted operations, and the local
  accumulator `x` of `cpuLoadThread` (never read by anything else) is left out.
-/

namespace HugeStressTest

/-! ## Shared vocabulary -/

/-- The two process-wide `std::atomic<bool>` stop flags. -/
inductive Flag
  | cpuLoadRunning
  | ramLoadRunning
  deriving DecidableEq, Repr

/-- The two `std::thread` objects owned by `main`. -/
inductive Thread
  | cpuThread
  | ramThread
  deriving DecidableEq, Repr

/-- A block obtained from `new char[size]`; `id` is its allocation number. -/
structure Block where
  id : Nat
  size : Nat
  deriving DecidableEq, Repr

/-- The two shader stages created in `main`. -/
inductive ShaderKind
  | vertex
  | fragment
  deriving DecidableEq, Repr

/-- Calls into GLFW, GLEW and OpenGL made by the program, with the arguments and
results that matter for control flow. Object handles are `unsigned int`. -/
inductive Call
  | glfwInit (ok : Bool)
  | glfwGetPrimaryMonitor
  | glfwGetVideoMode
  | glfwWindowHintContextVersionMajor (v : Nat)
  | glfwWindowHintContextVersionMinor (v : Nat)
  | glfwWindowHintOpenglCoreProfile
  | glfwCreateWindow (width height : Nat) (title : String) (ok : Bool)
  | glfwMakeContextCurrent
  | glewInit (ok : Bool)
  | glfwDestroyWindow
  | glfwTerminate
  | glCreateShader (kind : ShaderKind) (handle : Nat)
  | glShaderSource (shader : Nat) (kind : ShaderKind)
  | glCompileShader (shader : Nat)
  | glGetShaderivCompileStatus (shader : Nat) (success : Int)
  | glGetShaderInfoLog (shader : Nat) (bufSize : Nat)
  | glCreateProgram (handle : Nat)
  | glAttachShader (program shader : Nat)
  | glLinkProgram (program : Nat)
  | glGetProgramivLinkStatus (program : Nat) (success : Int)
  | glGetProgramInfoLog (program : Nat) (bufSize : Nat)
  | glDeleteShader (shader : Nat)
  | glGenVertexArrays (n : Nat) (vao : Nat)
  | glGenBuffers (n : Nat) (vbo : Nat)
  | glBindVertexArray (vao : Nat)
  | glBindBuffer (vbo : Nat)
  | glBufferData (bytes : Nat) (data : List Int)
  | glVertexAttribPointer (index size strideBytes offset : Nat)
  | glEnableVertexAttribArray (index : Nat)
  | glfwWindowShouldClose (result : Bool)
  | glClear
  | glUseProgram (program : Nat)
  | glDrawArrays (first count : Nat)
  | glfwSwapBuffers
  | glfwPollEvents
  | glDeleteVertexArrays (n : Nat) (vao : Nat)
  | glDeleteBuffers (n : Nat) (vbo : Nat)
  | glDeleteProgram (program : Nat)
  deriving DecidableEq, Repr

/-- The bytes of a string literal of the program, as a C string without its
terminator (the UTF-8 encoding of the text). -/
def cstr (s : String) : List UInt8 := s.data.flatMap String.utf8EncodeChar

/-- Observable effects of the three threads, in program order per thread.
`cerr` carries the bytes written to `std::cerr`. -/
inductive Event
  | startThread (t : Thread)
  | load (f : Flag) (v : Bool)
  | store (f : Flag) (v : Bool)
  | join (t : Thread)
  | innerIter (i : Nat)
  | newBlock (b : Block)
  | badAlloc
  | pushBack (b : Block)
  | sleepMs (ms : Nat)
  | cerr (text : List UInt8)
  | call (c : Call)
  deriving DecidableEq, Repr

/-- Whether an event is a write to the given flag. -/
def Event.isStoreTo (f : Flag) : Event → Bool
  | Event.store g _ => decide (g = f)
  | _ => false

/-- Whether an event is a write to any flag. -/
def Event.isStore : Event → Bool
  | Event.store _ _ => true
  | _ => false

/-- Whether an event is a read of any flag. -/
def Event.isLoad : Event → Bool
  | Event.load _ _ => true
  | _ => false

/-- Whether an event is one execution of the inner-loop body of the CPU worker. -/
def Event.isInnerIter : Event → Bool
  | Event.innerIter _ => true
  | _ => false

/-- Whether an event is an attempt to allocate (successful or not). -/
def Event.isAllocation : Event → Bool
  | Event.newBlock _ => true
  | Event.badAlloc => true
  | _ => false

/-- Initial value of both flags: `cpuLoadRunning(true)`, `ramLoadRunning(true)`. -/
def flagInit (_f : Flag) : Bool := true

/-- Value of flag `f` after the events of a trace, starting from value `v`. -/
def flagAfter (f : Flag) (v : Bool) : List Event → Bool
  | [] => v
  | Event.store g w :: rest => if g = f then flagAfter f w rest else flagAfter f v rest
  | _ :: rest => flagAfter f v rest

/-- A flag oracle for a worker whose flag is written to `false` once: the reads
performed at worker steps `0 .. T-1` see `true`, later reads see `false`. -/
def stopAt (T : Nat) : Nat → Bool := fun t => decide (t < T)

/-! ## CPU worker: `cpuLoadThread` -/

/-- Bound of the inner `for` loop of `cpuLoadThread`. -/
def INNER_ITERS : Nat := 1000000

/-- Control points of `cpuLoadThread`: `check` is the test of the `while`
condition, `inner i` is the test `i < 1000000` of the `for` loop with the
current value of `i`, `done` is after the function has returned. -/
inductive CpuPc
  | check
  | inner (i : Nat)
  | done
  deriving DecidableEq, Repr

/-- Entry state of `cpuLoadThread`. -/
def cpuInit : CpuPc := CpuPc.check

/-- One step of `cpuLoadThread`; `flag` is the value a read of `cpuLoadRunning`
returns at this step (only used at `check`). -/
def cpuStep (flag : Bool) : CpuPc → CpuPc × List Event
  | CpuPc.check =>
    if flag then (CpuPc.inner 0, [Event.load Flag.cpuLoadRunning true])
    else (CpuPc.done, [Event.load Flag.cpuLoadRunning false])
  | CpuPc.inner i =>
    if i < INNER_ITERS then (CpuPc.inner (i + 1), [Event.innerIter i])
    else (CpuPc.check, [])
  | CpuPc.done => (CpuPc.done, [])

/-- Run `n` steps of `cpuLoadThread` from its step number `t`; `flagAt k` is the
value of `cpuLoadRunning` visible to the worker at its step `k`. -/
def cpuRun (flagAt : Nat → Bool) : Nat → Nat → CpuPc → CpuPc × List Event
  | _, 0, s => (s, [])
  | t, n + 1, s =>
    let r := cpuStep (flagAt t) s
    let r2 := cpuRun flagAt (t + 1) n r.1
    (r2.1, r.2 ++ r2.2)

/-- States the `for` loop can be in: `i` never exceeds the bound. -/
def CpuPc.wf : CpuPc → Prop
  | CpuPc.inner i => i ≤ INNER_ITERS
  | _ => True

/-! ## RAM worker: `ramLoadThread` -/

/-- Size of one block: `10 * 1024 * 1024` bytes. -/
def BLOCK_SIZE : Nat := 10 * 1024 * 1024

/-- Sleep between two allocations, in milliseconds. -/
def ALLOC_INTERVAL_MS : Nat := 100

/-- Text written to `std::cerr` by the `catch (std::bad_alloc&)` handler. -/
def OOM_MESSAGE : List UInt8 := cstr "Out of memory (RAM stress test)\n"

/-- What the allocator does: `newOk k` tells whether `new char[10 * 1024 * 1024]`
succeeds when the worker already holds `k` blocks, `pushOk k` whether
`allocations.push_back` succeeds on a vector of `k` elements (growing the
vector allocates and can throw `std::bad_alloc` as well). -/
structure Memory where
  newOk : Nat → Bool
  pushOk : Nat → Bool

/-- Control points of `ramLoadThread`: `running` is the test of the `while`
condition, `frozen` is the `while (true)` of the `catch` handler, `returned` is
after the function has returned. -/
inductive RamPc
  | running
  | frozen
  | returned
  deriving DecidableEq, Repr

/-- State of `ramLoadThread`: `allocations` is the vector (in `push_back`
order), `live` are the blocks obtained from `new` and not released. -/
structure RamState where
  pc : RamPc
  allocations : List Block
  live : List Block
  deriving DecidableEq, Repr

/-- Entry state of `ramLoadThread`. -/
def ramInit : RamState := { pc := RamPc.running, allocations := [], live := [] }

/-- One step of `ramLoadThread`: one pass through the `while (ramLoadRunning)`
loop, or one pass through the `while (true)` loop of the handler. `flag` is the
value a read of `ramLoadRunning` returns at this step. -/
def ramStep (m : Memory) (flag : Bool) (s : RamState) : RamState × List Event :=
  match s.pc with
  | RamPc.running =>
    if flag then
      if m.newOk s.live.length then
        let block : Block := { id := s.live.length, size := BLOCK_SIZE }
        if m.pushOk s.allocations.length then
          ({ pc := RamPc.running, allocations := s.allocations ++ [block],
             live := s.live ++ [block] },
           [Event.load Flag.ramLoadRunning true, Event.newBlock block, Event.pushBack block,
            Event.sleepMs ALLOC_INTERVAL_MS])
        else
          ({ pc := RamPc.frozen, allocations := s.allocations, live := s.live ++ [block] },
           [Event.load Flag.ramLoadRunning true, Event.newBlock block, Event.badAlloc,
            Event.cerr OOM_MESSAGE])
      else
        ({ pc := RamPc.frozen, allocations := s.allocations, live := s.live },
         [Event.load Flag.ramLoadRunning true, Event.badAlloc, Event.cerr OOM_MESSAGE])
    else
      ({ pc := RamPc.returned, allocations := s.allocations, live := s.live },
       [Event.load Flag.ramLoadRunning false])
  | RamPc.frozen => (s, [Event.sleepMs 1000])
  | RamPc.returned => (s, [])

/-- Run `n` steps of `ramLoadThread` from its step number `t`; `flagAt k` is the
value of `ramLoadRunning` visible to the worker at its step `k`. -/
def ramRun (m : Memory) (flagAt : Nat → Bool) : Nat → Nat → RamState → RamState × List Event
  | _, 0, s => (s, [])
  | t, n + 1, s =>
    let r := ramStep m (flagAt t) s
    let r2 := ramRun m flagAt (t + 1) n r.1
    (r2.1, r.2 ++ r2.2)

/-- The blocks with allocation numbers `0 .. n-1`, each of `BLOCK_SIZE` bytes. -/
def blocksUpTo (n : Nat) : List Block :=
  (List.range n).map (fun k => { id := k, size := BLOCK_SIZE })

/-- Total number of bytes of a list of blocks. -/
def totalBytes (bs : List Block) : Nat := (bs.map Block.size).sum

/-- Events of the `k`-th successful pass through the allocation loop. -/
def allocPass (k : Nat) : List Event :=
  [Event.load Flag.ramLoadRunning true, Event.newBlock { id := k, size := BLOCK_SIZE },
   Event.pushBack { id := k, size := BLOCK_SIZE }, Event.sleepMs ALLOC_INTERVAL_MS]

/-- Events of `n` successful passes through the allocation loop. -/
def allocPasses (n : Nat) : List Event := (List.range n).flatMap allocPass

/-! ## Shader diagnostics: `checkCompileErrors` -/

/-- What the GL driver answers to the status and info-log queries, per object
handle: the value left in `success` by `glGetShaderiv(.., GL_COMPILE_STATUS, ..)`
and by `glGetProgramiv(.., GL_LINK_STATUS, ..)`, and the bytes of the driver's
info logs. -/
structure GlDriver where
  compileStatus : Nat → Int
  linkStatus : Nat → Int
  shaderInfoLog : Nat → List UInt8
  programInfoLog : Nat → List UInt8

/-- Size of the local buffer `char infoLog[1024]`. -/
def INFO_LOG_SIZE : Nat := 1024

/-- What `std::cerr << infoLog` prints after
`glGet*InfoLog(obj, bufSize, NULL, infoLog)`: the call stores at most
`bufSize - 1` bytes of the driver's log followed by the terminator, and the
output operator prints the bytes of the buffer before the first zero byte. -/
def readInfoLog (bufSize : Nat) (log : List UInt8) : List UInt8 :=
  (log.take (bufSize - 1)).takeWhile (fun b => b ≠ 0)

/-- Text before the stage name in a compile diagnostic. -/
def COMPILE_HEADER : List UInt8 := cstr "ERROR::SHADER_COMPILATION_ERROR of type: "

/-- Text before the stage name in a link diagnostic. -/
def LINK_HEADER : List UInt8 := cstr "ERROR::PROGRAM_LINKING_ERROR of type: "

/-- Text after the info log in a diagnostic, with the newline of `std::endl`. -/
def TRAILER : List UInt8 := cstr "\n----------------------------------------" ++ cstr "\n"

/-- Model of `checkCompileErrors(shader, type)`. -/
def checkCompileErrors (gl : GlDriver) (shader : Nat) (type : String) : List Event :=
  if type ≠ "PROGRAM" then
    let success := gl.compileStatus shader
    if success = 0 then
      let infoLog := readInfoLog INFO_LOG_SIZE (gl.shaderInfoLog shader)
      [Event.call (Call.glGetShaderivCompileStatus shader success),
       Event.call (Call.glGetShaderInfoLog shader INFO_LOG_SIZE),
       Event.cerr (COMPILE_HEADER ++ cstr type ++ cstr "\n" ++ infoLog ++ TRAILER)]
    else
      [Event.call (Call.glGetShaderivCompileStatus shader success)]
  else
    let success := gl.linkStatus shader
    if success = 0 then
      let infoLog := readInfoLog INFO_LOG_SIZE (gl.programInfoLog shader)
      [Event.call (Call.glGetProgramivLinkStatus shader success),
       Event.call (Call.glGetProgramInfoLog shader INFO_LOG_SIZE),
       Event.cerr (LINK_HEADER ++ cstr type ++ cstr "\n" ++ infoLog ++ TRAILER)]
    else
      [Event.call (Call.glGetProgramivLinkStatus shader success)]

/-- The texts written to `std::cerr` in a trace, in order. -/
def errOutput : List Event → List (List UInt8)
  | [] => []
  | Event.cerr s :: rest => s :: errOutput rest
  | _ :: rest => errOutput rest

/-- The content of `infoLog` that `checkCompileErrors(shader, type)` prints. -/
def infoLogOf (gl : GlDriver) (shader : Nat) (type : String) : List UInt8 :=
  if type ≠ "PROGRAM" then readInfoLog INFO_LOG_SIZE (gl.shaderInfoLog shader)
  else readInfoLog INFO_LOG_SIZE (gl.programInfoLog shader)

/-! ## Vertex data and vertex stage -/

/-- The array `float vertices[]` of `main`; every entry is exactly `-1.0f` or `1.0f`. -/
def vertices : List Int :=
  [-1, 1,
   -1, -1,
    1, -1,
   -1, 1,
    1, -1,
    1, 1]

/-- Bytes of one `float`. -/
def SIZEOF_FLOAT : Nat := 4

/-- Number of components per vertex in `glVertexAttribPointer(0, 2, ..)`. -/
def ATTRIB_SIZE : Nat := 2

/-- Stride in bytes in `glVertexAttribPointer`: `2 * sizeof(float)`. -/
def ATTRIB_STRIDE : Nat := 2 * SIZEOF_FLOAT

/-- Vertex count in `glDrawArrays(GL_TRIANGLES, 0, 6)`. -/
def DRAW_COUNT : Nat := 6

/-- Attribute `aPos` of vertex `k` as fetched by the GL: `ATTRIB_SIZE` floats
starting at byte `k * ATTRIB_STRIDE` of the buffer. -/
def vertexAt (k : Nat) : Int × Int :=
  (vertices.getD (k * ATTRIB_STRIDE / SIZEOF_FLOAT) 0,
   vertices.getD (k * ATTRIB_STRIDE / SIZEOF_FLOAT + 1) 0)

/-- The vertices drawn by `glDrawArrays(GL_TRIANGLES, 0, 6)`. -/
def drawnVertices : List (Int × Int) := (List.range DRAW_COUNT).map vertexAt

/-- Triangle `j` of a `GL_TRIANGLES` draw: vertices `3j`, `3j+1`, `3j+2`. -/
def triangleAt (j : Nat) : (Int × Int) × (Int × Int) × (Int × Int) :=
  (vertexAt (3 * j), vertexAt (3 * j + 1), vertexAt (3 * j + 2))

/-- Vertex stage: `gl_Position = vec4(aPos, 0.0, 1.0)`. -/
def vertexMain {K : Type} [Zero K] [One K] (aPos : K × K) : K × K × K × K :=
  (aPos.1, aPos.2, 0, 1)

/-- Edge function of the directed edge `a -> b` at point `p` (twice the signed
area of the triangle `a b p`). -/
def edgeFn {K : Type} [LinearOrderedField K] (a b p : K × K) : K :=
  (b.1 - a.1) * (p.2 - a.2) - (b.2 - a.2) * (p.1 - a.1)

/-- A point lies in the closed triangle `a b c` when it is on the same side of
(or on) all three edges. -/
def inTriangle {K : Type} [LinearOrderedField K] (a b c p : K × K) : Prop :=
  (0 ≤ edgeFn a b p ∧ 0 ≤ edgeFn b c p ∧ 0 ≤ edgeFn c a p) ∨
  (edgeFn a b p ≤ 0 ∧ edgeFn b c p ≤ 0 ∧ edgeFn c a p ≤ 0)

/-- Clip-space position of a vertex of the buffer. -/
def clipPos (K : Type) [LinearOrderedField K] (v : Int × Int) : K × K :=
  ((v.1 : K), (v.2 : K))

/-- A point lies in triangle `j` of the draw call. -/
def inDrawnTriangle {K : Type} [LinearOrderedField K] (j : Nat) (p : K × K) : Prop :=
  inTriangle (clipPos K (triangleAt j).1) (clipPos K (triangleAt j).2.1)
    (clipPos K (triangleAt j).2.2) p

/-- A point lies on the closed segment from `a` to `b`. -/
def onSegment {K : Type} [LinearOrderedField K] (a b p : K × K) : Prop :=
  ∃ t : K, 0 ≤ t ∧ t ≤ 1 ∧ p.1 = a.1 + t * (b.1 - a.1) ∧ p.2 = a.2 + t * (b.2 - a.2)

/-! ## Fragment stage -/

/-- Everything `main` and the workers depend on and do not control. -/
structure Env where
  /-- Result of `glfwInit()`. -/
  glfwInitOk : Bool
  /-- Result of `glfwGetVideoMode(monitor)`: `none` is `NULL`, else width and height. -/
  videoMode : Option (Nat × Nat)
  /-- Whether `glfwCreateWindow` returns a non-null window. -/
  windowOk : Bool
  /-- Whether `glewInit()` returns `GLEW_OK`. -/
  glewOk : Bool
  /-- Handle returned by `glCreateShader`. -/
  createShader : ShaderKind → Nat
  /-- Handle returned by `glCreateProgram`. -/
  createProgram : Nat
  /-- Answers of the driver to status and log queries. -/
  gl : GlDriver
  /-- Name written to `VAO` by `glGenVertexArrays`. -/
  genVertexArray : Nat
  /-- Name written to `VBO` by `glGenBuffers`. -/
  genBuffer : Nat
  /-- Result of the `k`-th call of `glfwWindowShouldClose(window)`. -/
  shouldClose : Nat → Bool
  /-- Behaviour of the allocator towards the RAM worker. -/
  mem : Memory
  /-- Number of steps the CPU worker has taken when the store of `false` to
  `cpuLoadRunning` becomes visible to it. -/
  cpuStepsAtStop : Nat
  /-- Number of steps the RAM worker has taken when the store of `false` to
  `ramLoadRunning` becomes visible to it. -/
  ramStepsAtStop : Nat

/-- How a run of `main` ends. -/
inductive Outcome
  /-- The `return` statement was reached with this value. -/
  | returned (code : Int)
  /-- Blocked in `join()` of this thread: the worker has not returned within the budget. -/
  | joinPending (t : Thread)
  /-- Still in the render loop when the budget ran out. -/
  | rendering
  /-- Evaluation of `mode->width` with `mode == NULL`. -/
  | nullDeref
  deriving DecidableEq, Repr

/-- State of the CPU worker `fuel` steps after the store of `false` became
visible to it. -/
def cpuWorkerAfterStop (env : Env) (fuel : Nat) : CpuPc :=
  (cpuRun (stopAt env.cpuStepsAtStop) 0 (env.cpuStepsAtStop + fuel) cpuInit).1

/-- State of the RAM worker `fuel` steps after the store of `false` became
visible to it. -/
def ramWorkerAfterStop (env : Env) (fuel : Nat) : RamState :=
  (ramRun env.mem (stopAt env.ramStepsAtStop) 0 (env.ramStepsAtStop + fuel) ramInit).1

/-- The block `cpuLoadRunning = false; ramLoadRunning = false; cpuThread.join();
ramThread.join();` which occurs four times in `main`. The second component is
the thread whose `join()` has not completed within `fuel` worker steps, if any. -/
def stopAndJoin (env : Env) (fuel : Nat) : List Event × Option Thread :=
  if cpuWorkerAfterStop env fuel = CpuPc.done then
    if (ramWorkerAfterStop env fuel).pc = RamPc.returned then
      ([Event.store Flag.cpuLoadRunning false, Event.store Flag.ramLoadRunning false,
        Event.join Thread.cpuThread, Event.join Thread.ramThread], none)
    else
      ([Event.store Flag.cpuLoadRunning false, Event.store Flag.ramLoadRunning false,
        Event.join Thread.cpuThread], some Thread.ramThread)
  else
    ([Event.store Flag.cpuLoadRunning false, Event.store Flag.ramLoadRunning false],
     some Thread.cpuThread)

/-- Outcome of a startup-failure path after its `stopAndJoin` block. -/
def afterJoin (pending : Option Thread) (code : Int) : Outcome :=
  match pending with
  | some t => Outcome.joinPending t
  | none => Outcome.returned code

/-- Creation, compilation and linking of the shaders, lines 153-170 of `main`. -/
def shaderSetup (env : Env) : List Event :=
  let vertexShader := env.createShader ShaderKind.vertex
  let fragmentShader := env.createShader ShaderKind.fragment
  let shaderProgram := env.createProgram
  [Event.call (Call.glCreateShader ShaderKind.vertex vertexShader),
   Event.call (Call.glShaderSource vertexShader ShaderKind.vertex),
   Event.call (Call.glCompileShader vertexShader)]
  ++ checkCompileErrors env.gl vertexShader "VERTEX"
  ++ [Event.call (Call.glCreateShader ShaderKind.fragment fragmentShader),
      Event.call (Call.glShaderSource fragmentShader ShaderKind.fragment),
      Event.call (Call.glCompileShader fragmentShader)]
  ++ checkCompileErrors env.gl fragmentShader "FRAGMENT"
  ++ [Event.call (Call.glCreateProgram shaderProgram),
      Event.call (Call.glAttachShader shaderProgram vertexShader),
      Event.call (Call.glAttachShader shaderProgram fragmentShader),
      Event.call (Call.glLinkProgram shaderProgram)]
  ++ checkCompileErrors env.gl shaderProgram "PROGRAM"
  ++ [Event.call (Call.glDeleteShader vertexShader),
      Event.call (Call.glDeleteShader fragmentShader)]

/-- Creation and filling of the vertex array and buffer, lines 182-191 of `main`. -/
def bufferSetup (env : Env) : List Event :=
  [Event.call (Call.glGenVertexArrays 1 env.genVertexArray),
   Event.call (Call.glGenBuffers 1 env.genBuffer),
   Event.call (Call.glBindVertexArray env.genVertexArray),
   Event.call (Call.glBindBuffer env.genBuffer),
   Event.call (Call.glBufferData (vertices.length * SIZEOF_FLOAT) vertices),
   Event.call (Call.glVertexAttribPointer 0 ATTRIB_SIZE ATTRIB_STRIDE 0),
   Event.call (Call.glEnableVertexAttribArray 0)]

/-- Body of the render loop: one frame. -/
def frameEvents (env : Env) : List Event :=
  [Event.call Call.glClear,
   Event.call (Call.glUseProgram env.createProgram),
   Event.call (Call.glBindVertexArray env.genVertexArray),
   Event.call (Call.glDrawArrays 0 DRAW_COUNT),
   Event.call Call.glfwSwapBuffers,
   Event.call Call.glfwPollEvents]

/-- The render loop `while (!glfwWindowShouldClose(window))` from its pass
number `k`, with a budget of `fuel` evaluations of the loop condition. The
second component tells whether the loop was left. -/
def renderLoop (env : Env) : Nat → Nat → List Event × Bool
  | 0, _ => ([], false)
  | fuel + 1, k =>
    if env.shouldClose k then
      ([Event.call (Call.glfwWindowShouldClose true)], true)
    else
      let r := renderLoop env fuel (k + 1)
      (Event.call (Call.glfwWindowShouldClose false) :: (frameEvents env ++ r.1), r.2)

/-- Release of the graphics objects and of GLFW, lines 212-217 of `main`. -/
def cleanup (env : Env) : List Event :=
  [Event.call (Call.glDeleteVertexArrays 1 env.genVertexArray),
   Event.call (Call.glDeleteBuffers 1 env.genBuffer),
   Event.call (Call.glDeleteProgram env.createProgram),
   Event.call Call.glfwDestroyWindow,
   Event.call Call.glfwTerminate]

/-- Events of `main` up to and including the call of `glfwCreateWindow`. -/
def windowSetup (env : Env) (mode : Nat × Nat) : List Event :=
  [Event.startThread Thread.cpuThread, Event.startThread Thread.ramThread,
   Event.call (Call.glfwInit true),
   Event.call Call.glfwGetPrimaryMonitor,
   Event.call Call.glfwGetVideoMode,
   Event.call (Call.glfwWindowHintContextVersionMajor 3),
   Event.call (Call.glfwWindowHintContextVersionMinor 3),
   Event.call Call.glfwWindowHintOpenglCoreProfile,
   Event.call (Call.glfwCreateWindow mode.1 mode.2 "Huge Stress Test" env.windowOk)]

/-- Model of `main`: the trace of its effects and how it ends. `fuel` bounds
the number of evaluations of the render-loop condition and the number of worker
steps a `join()` waits for. The assignment `glewExperimental = GL_TRUE` to a
variable of the GLEW library is not recorded. -/
def main (env : Env) (fuel : Nat) : List Event × Outcome :=
  if env.glfwInitOk = false then
    let sj := stopAndJoin env fuel
    ([Event.startThread Thread.cpuThread, Event.startThread Thread.ramThread,
      Event.call (Call.glfwInit false), Event.cerr (cstr "Failed to initialize GLFW\n")] ++ sj.1,
     afterJoin sj.2 (-1))
  else
    match env.videoMode with
    | none =>
      ([Event.startThread Thread.cpuThread, Event.startThread Thread.ramThread,
        Event.call (Call.glfwInit true),
        Event.call Call.glfwGetPrimaryMonitor,
        Event.call Call.glfwGetVideoMode,
        Event.call (Call.glfwWindowHintContextVersionMajor 3),
        Event.call (Call.glfwWindowHintContextVersionMinor 3),
        Event.call Call.glfwWindowHintOpenglCoreProfile], Outcome.nullDeref)
    | some mode =>
      if env.windowOk = false then
        let sj := stopAndJoin env fuel
        (windowSetup env mode
          ++ [Event.cerr (cstr "Failed to create GLFW window\n"), Event.call Call.glfwTerminate]
          ++ sj.1,
         afterJoin sj.2 (-1))
      else if env.glewOk = false then
        let sj := stopAndJoin env fuel
        (windowSetup env mode
          ++ [Event.call Call.glfwMakeContextCurrent, Event.call (Call.glewInit false),
              Event.cerr (cstr "Failed to initialize GLEW\n"), Event.call Call.glfwDestroyWindow,
              Event.call Call.glfwTerminate]
          ++ sj.1,
         afterJoin sj.2 (-1))
      else
        let setup := windowSetup env mode
          ++ [Event.call Call.glfwMakeContextCurrent, Event.call (Call.glewInit true)]
          ++ shaderSetup env ++ bufferSetup env
        let loop := renderLoop env fuel 0
        if loop.2 = false then
          (setup ++ loop.1, Outcome.rendering)
        else
          let sj := stopAndJoin env fuel
          match sj.2 with
          | some t => (setup ++ loop.1 ++ sj.1, Outcome.joinPending t)
          | none => (setup ++ loop.1 ++ sj.1 ++ cleanup env, Outcome.returned 0)

/-- The three startup failures of `main`: `glfwInit` fails, `glfwCreateWindow`
returns null, or `glewInit` does not return `GLEW_OK`. -/
def startupFailure (env : Env) : Prop :=
  env.glfwInitOk = false ∨
  (env.glfwInitOk = true ∧ env.videoMode.isSome = true ∧ env.windowOk = false) ∨
  (env.glfwInitOk = true ∧ env.videoMode.isSome = true ∧ env.windowOk = true ∧
    env.glewOk = false)

/-- GLFW, the window and GLEW have all been set up. -/
def startupOk (env : Env) : Prop :=
  env.glfwInitOk = true ∧ env.videoMode.isSome = true ∧ env.windowOk = true ∧
    env.glewOk = true

/-- No allocation of the RAM worker fails in the steps it takes before the
store of `false` to `ramLoadRunning` becomes visible to it. -/
def ramNeverFailed (env : Env) : Prop :=
  ∀ k, k < env.ramStepsAtStop → env.mem.newOk k = true ∧ env.mem.pushOk k = true

/-- Whether an event is the compilation of a shader. -/
def Event.isCompile : Event → Bool
  | Event.call (Call.glCompileShader _) => true
  | _ => false

/-- Whether an event belongs to the render loop (its condition or its body). -/
def Event.isRender : Event → Bool
  | Event.call (Call.glfwWindowShouldClose _) => true
  | Event.call Call.glClear => true
  | Event.call (Call.glUseProgram _) => true
  | Event.call (Call.glDrawArrays _ _) => true
  | Event.call Call.glfwSwapBuffers => true
  | Event.call Call.glfwPollEvents => true
  | _ => false

/-- Whether an event is a completed `join()`. -/
def Event.isJoin : Event → Bool
  | Event.join _ => true
  | _ => false

/-- Whether an event is one of the releases at the end of `main`: deletion of the
vertex array, of the buffer or of the program, destruction of the window, or
termination of GLFW. -/
def Event.isCleanup : Event → Bool
  | Event.call (Call.glDeleteVertexArrays _ _) => true
  | Event.call (Call.glDeleteBuffers _ _) => true
  | Event.call (Call.glDeleteProgram _) => true
  | Event.call Call.glfwDestroyWindow => true
  | Event.call Call.glfwTerminate => true
  | _ => false

/-- Whether an event belongs to the shutdown sequence of `main`: a flag write,
a completed join or a release. -/
def Event.isShutdown (e : Event) : Bool := e.isStore || e.isJoin || e.isCleanup

/-- The last four events of a completed `stopAndJoin` block. -/
def STOP_AND_JOIN : List Event :=
  [Event.store Flag.cpuLoadRunning false, Event.store Flag.ramLoadRunning false,
   Event.join Thread.cpuThread, Event.join Thread.ramThread]

/-! ## The OpenGL pipeline as far as the program drives it

The frames on the screen are produced by the GL from the calls of `main`. The
state below holds what those calls set and what a draw call reads: the size of
the window, the source held by each shader object, the shaders attached to and
linked into each program, the program in use, the bound vertex array and
buffer, the data of each buffer and the layout of attribute 0 of each vertex
array. The program has no uniform and no call that passes a time. -/

instance inTriangleDecidable (a b c p : ℚ × ℚ) : Decidable (inTriangle a b c p) := by
  unfold inTriangle
  infer_instance

/-- Whether an event is a draw call. -/
def Event.isDraw : Event → Bool
  | Event.call (Call.glDrawArrays _ _) => true
  | _ => false

/-! ## Concrete environments -/

/-- An allocator that never fails. -/
def memAlways : Memory := { newOk := fun _ => true, pushOk := fun _ => true }

/-- An allocator that fails every request. -/
def memNever : Memory := { newOk := fun _ => false, pushOk := fun _ => false }

/-- An allocator whose third `new` fails. -/
def memTwoBlocks : Memory := { newOk := fun k => decide (k < 2), pushOk := fun _ => true }

/-- A driver for which every compilation and linking succeeds with empty logs. -/
def glAllOk : GlDriver :=
  { compileStatus := fun _ => 1, linkStatus := fun _ => 1,
    shaderInfoLog := fun _ => [], programInfoLog := fun _ => [] }

/-- A driver for which every compilation and linking fails. -/
def glAllFail : GlDriver :=
  { compileStatus := fun _ => 0, linkStatus := fun _ => 0,
    shaderInfoLog := fun _ => cstr "0:1: syntax error",
    programInfoLog := fun _ => cstr "link failed" }

/-- Everything succeeds, the window is closed after two frames, no allocation
fails, and each worker has taken three steps when it can see the store. -/
def envNormal : Env :=
  { glfwInitOk := true, videoMode := some (1920, 1080), windowOk := true, glewOk := true,
    createShader := fun k => match k with
      | ShaderKind.vertex => 1
      | ShaderKind.fragment => 2,
    createProgram := 3, gl := glAllOk, genVertexArray := 1, genBuffer := 1,
    shouldClose := fun k => decide (2 ≤ k), mem := memAlways,
    cpuStepsAtStop := 3, ramStepsAtStop := 3 }

/-- The environment `envNormal` with a failing `glfwCreateWindow`. -/
def envWindowFail : Env := { envNormal with windowOk := false }

/-- The environment `envNormal` with a driver that rejects every shader. -/
def envShaderFail : Env := { envNormal with gl := glAllFail }

/-- A failing `glfwInit` while the first allocation of the RAM worker has
failed before the worker can see the store to its flag. -/
def envInitFailOom : Env :=
  { envNormal with glfwInitOk := false, mem := memNever, ramStepsAtStop := 1 }

/-- A failing `glfwCreateWindow` while the first allocation of the RAM worker
has failed before the worker can see the store to its flag. -/
def envWindowFailOom : Env :=
  { envNormal with windowOk := false, mem := memNever, ramStepsAtStop := 2 }

/-- The window is closed after two frames, while the third allocation of the RAM
worker has failed before the worker can see the store to its flag. -/
def envNormalOom : Env :=
  { envNormal with mem := memTwoBlocks, ramStepsAtStop := 7 }

/-- The window is closed at once, while the third allocation of the RAM worker
has failed before the worker can see the store to its flag. -/
def envCloseOom : Env :=
  { envNormal with shouldClose := fun _ => true, mem := memTwoBlocks, ramStepsAtStop := 5 }

/-- Every shader is rejected, the window is closed after two frames, and the
first allocation of the RAM worker has failed before the store to its flag. -/
def envShaderFailOom : Env :=
  { envNormal with gl := glAllFail, mem := memNever, ramStepsAtStop := 4 }

/-! ## Lemmas on the CPU worker -/

theorem cpuRun_add (f : Nat → Bool) (a b t : Nat) (s : CpuPc) :
    cpuRun f t (a + b) s =
      ((cpuRun f (t + a) b (cpuRun f t a s).1).1,
       (cpuRun f t a s).2 ++ (cpuRun f (t + a) b (cpuRun f t a s).1).2) := by
  induction a generalizing t s with
  | zero => simp [cpuRun]
  | succ a ih =>
    have h1 : a + 1 + b = (a + b) + 1 := by omega
    have h2 : t + (a + 1) = t + 1 + a := by omega
    rw [h1, h2]
    simp only [cpuRun]
    rw [ih]
    simp [List.append_assoc]

theorem cpuRun_done (f : Nat → Bool) (t n : Nat) :
    cpuRun f t n CpuPc.done = (CpuPc.done, []) := by
  induction n generalizing t with
  | zero => rfl
  | succ n ih => simp [cpuRun, cpuStep, ih]

theorem cpuRun_inner (f : Nat → Bool) (k t i : Nat) (h : i + k ≤ INNER_ITERS) :
    cpuRun f t k (CpuPc.inner i) =
      (CpuPc.inner (i + k), (List.range' i k).map Event.innerIter) := by
  induction k generalizing t i with
  | zero => simp [cpuRun]
  | succ k ih =>
    have hi : i < INNER_ITERS := by omega
    have hk : i + 1 + k ≤ INNER_ITERS := by omega
    have e : i + 1 + k = i + (k + 1) := by omega
    simp only [cpuRun, cpuStep, hi, if_true]
    rw [ih (t + 1) (i + 1) hk, e]
    simp [List.range'_succ]

theorem cpuStep_wf (flag : Bool) (s : CpuPc) (h : s.wf) : (cpuStep flag s).1.wf := by
  cases s with
  | check => cases flag <;> simp [cpuStep, CpuPc.wf]
  | inner i =>
    by_cases hi : i < INNER_ITERS
    · simp only [cpuStep, hi, if_true, CpuPc.wf]; omega
    · simp [cpuStep, hi, CpuPc.wf]
  | done => simp [cpuStep, CpuPc.wf]

theorem cpuRun_wf (f : Nat → Bool) (n t : Nat) (s : CpuPc) (h : s.wf) :
    (cpuRun f t n s).1.wf := by
  induction n generalizing t s with
  | zero => simpa [cpuRun] using h
  | succ n ih =>
    simp only [cpuRun]
    exact ih (t + 1) _ (cpuStep_wf _ _ h)

theorem countP_innerIter_map (l : List Nat) :
    (l.map Event.innerIter).countP Event.isInnerIter = l.length := by
  induction l with
  | nil => rfl
  | cons a l ih => simp [List.countP_cons, Event.isInnerIter, ih]

theorem countP_load_map (l : List Nat) :
    (l.map Event.innerIter).countP Event.isLoad = 0 := by
  induction l with
  | nil => rfl
  | cons a l ih => simp [List.countP_cons, Event.isLoad, ih]

/-- From any state of the worker, once the flag reads `false` from step `T` on,
the worker has returned after at most `INNER_ITERS + 2` steps, in which it runs
at most `INNER_ITERS` inner iterations and reads the flag at most once. -/
theorem cpu_stops (f : Nat → Bool) (T : Nat) (hstop : ∀ t, T ≤ t → f t = false)
    (s : CpuPc) (h : s.wf) :
    ∃ k, k ≤ INNER_ITERS + 2 ∧ (cpuRun f T k s).1 = CpuPc.done ∧
      (cpuRun f T k s).2.countP Event.isInnerIter ≤ INNER_ITERS ∧
      (cpuRun f T k s).2.countP Event.isLoad ≤ 1 := by
  cases s with
  | done => exact ⟨0, by omega, rfl, by simp [cpuRun], by simp [cpuRun]⟩
  | check =>
    refine ⟨1, by omega, ?_, ?_, ?_⟩ <;>
      simp [cpuRun, cpuStep, hstop T (le_refl T), Event.isInnerIter, Event.isLoad]
  | inner i =>
    have hi : i ≤ INNER_ITERS := h
    have hsum : i + (INNER_ITERS - i) ≤ INNER_ITERS := by omega
    have hend : i + (INNER_ITERS - i) = INNER_ITERS := by omega
    have hf : f (T + (INNER_ITERS - i) + 1) = false := hstop _ (by omega)
    have hrun : cpuRun f T (INNER_ITERS - i + 2) (CpuPc.inner i) =
        (CpuPc.done, (List.range' i (INNER_ITERS - i)).map Event.innerIter
          ++ [Event.load Flag.cpuLoadRunning false]) := by
      rw [cpuRun_add, cpuRun_inner f _ T i hsum, hend]
      simp [cpuRun, cpuStep, hf]
    refine ⟨INNER_ITERS - i + 2, by omega, ?_, ?_, ?_⟩
    · rw [hrun]
    · rw [hrun, List.countP_append, countP_innerIter_map]
      simp [Event.isInnerIter]
    · rw [hrun, List.countP_append, countP_load_map]
      simp [Event.isLoad]

theorem cpuRun_reaches_done (f : Nat → Bool) (T : Nat) (hstop : ∀ t, T ≤ t → f t = false)
    (s : CpuPc) (h : s.wf) (n : Nat) (hn : INNER_ITERS + 2 ≤ n) :
    (cpuRun f T n s).1 = CpuPc.done := by
  obtain ⟨k, hk, hdone, _, _⟩ := cpu_stops f T hstop s h
  have e : n = k + (n - k) := by omega
  rw [e, cpuRun_add]
  simp only []
  rw [hdone, cpuRun_done]

theorem stopAt_after (T t : Nat) (h : T ≤ t) : stopAt T t = false := by
  simp [stopAt]; omega

theorem stopAt_before (T t : Nat) (h : t < T) : stopAt T t = true := by
  simp [stopAt]; omega

/-! ## Lemmas on the RAM worker -/

theorem ramRun_add (m : Memory) (f : Nat → Bool) (a b t : Nat) (s : RamState) :
    ramRun m f t (a + b) s =
      ((ramRun m f (t + a) b (ramRun m f t a s).1).1,
       (ramRun m f t a s).2 ++ (ramRun m f (t + a) b (ramRun m f t a s).1).2) := by
  induction a generalizing t s with
  | zero => simp [ramRun]
  | succ a ih =>
    have h1 : a + 1 + b = (a + b) + 1 := by omega
    have h2 : t + (a + 1) = t + 1 + a := by omega
    rw [h1, h2]
    simp only [ramRun]
    rw [ih]
    simp [List.append_assoc]

theorem ramRun_frozen (m : Memory) (f : Nat → Bool) (t n : Nat) (s : RamState)
    (h : s.pc = RamPc.frozen) :
    ramRun m f t n s = (s, List.replicate n (Event.sleepMs 1000)) := by
  induction n generalizing t with
  | zero => rfl
  | succ n ih =>
    have hs : ramStep m (f t) s = (s, [Event.sleepMs 1000]) := by simp [ramStep, h]
    simp only [ramRun, hs, ih]
    simp [List.replicate_succ]

theorem ramRun_returned (m : Memory) (f : Nat → Bool) (t n : Nat) (s : RamState)
    (h : s.pc = RamPc.returned) :
    ramRun m f t n s = (s, []) := by
  induction n generalizing t with
  | zero => rfl
  | succ n ih =>
    have hs : ramStep m (f t) s = (s, []) := by simp [ramStep, h]
    simp only [ramRun, hs, ih]
    simp

theorem ramStep_fail (m : Memory) (s : RamState) (hpc : s.pc = RamPc.running)
    (hfail : m.newOk s.live.length = false ∨ m.pushOk s.allocations.length = false) :
    (ramStep m true s).1.pc = RamPc.frozen ∧
    (ramStep m true s).1.allocations = s.allocations ∧
    s.live <+: (ramStep m true s).1.live := by
  cases hn : m.newOk s.live.length <;> cases hp : m.pushOk s.allocations.length <;>
    simp_all [ramStep]

theorem blocksUpTo_length (n : Nat) : (blocksUpTo n).length = n := by
  simp [blocksUpTo]

theorem blocksUpTo_succ (n : Nat) :
    blocksUpTo (n + 1) = blocksUpTo n ++ [{ id := n, size := BLOCK_SIZE }] := by
  simp [blocksUpTo, List.range_succ]

theorem allocPasses_succ (n : Nat) : allocPasses (n + 1) = allocPasses n ++ allocPass n := by
  simp [allocPasses, List.range_succ, List.flatMap_append]

theorem totalBytes_blocksUpTo (n : Nat) : totalBytes (blocksUpTo n) = BLOCK_SIZE * n := by
  induction n with
  | zero => rfl
  | succ n ih =>
    rw [blocksUpTo_succ]
    simp only [totalBytes] at ih ⊢
    simp [ih]
    ring

/-- While no allocation fails and the flag reads `true`, `n` steps of the worker
perform exactly `n` successful passes. -/
theorem ramRun_ok (m : Memory) (f : Nat → Bool) (n : Nat)
    (hmem : ∀ k, k < n → m.newOk k = true ∧ m.pushOk k = true)
    (hflag : ∀ k, k < n → f k = true) :
    ramRun m f 0 n ramInit =
      ({ pc := RamPc.running, allocations := blocksUpTo n, live := blocksUpTo n },
       allocPasses n) := by
  induction n with
  | zero => rfl
  | succ n ih =>
    have ih2 := ih (fun k hk => hmem k (by omega)) (fun k hk => hflag k (by omega))
    rw [ramRun_add, ih2]
    have h1 := (hmem n (by omega)).1
    have h2 := (hmem n (by omega)).2
    have h3 := hflag n (by omega)
    simp [ramRun, ramStep, blocksUpTo_length, h1, h2, h3, blocksUpTo_succ, allocPasses_succ,
      allocPass]

/-! ## Lemmas on joining the workers -/

theorem cpu_returns (env : Env) (fuel : Nat) (hf : INNER_ITERS + 2 ≤ fuel) :
    cpuWorkerAfterStop env fuel = CpuPc.done := by
  unfold cpuWorkerAfterStop
  rw [cpuRun_add]
  simp only []
  apply cpuRun_reaches_done _ _ _ _ _ fuel hf
  · intro t ht
    exact stopAt_after _ _ (by omega)
  · exact cpuRun_wf _ _ _ _ trivial

theorem ram_returns (env : Env) (h : ramNeverFailed env) (fuel : Nat) (hf : 1 ≤ fuel) :
    ramWorkerAfterStop env fuel =
      { pc := RamPc.returned, allocations := blocksUpTo env.ramStepsAtStop,
        live := blocksUpTo env.ramStepsAtStop } := by
  unfold ramWorkerAfterStop
  have e : fuel = 1 + (fuel - 1) := by omega
  rw [ramRun_add, ramRun_ok env.mem _ env.ramStepsAtStop h (fun k hk => stopAt_before _ k hk)]
  simp only []
  rw [e, ramRun_add]
  rw [Nat.zero_add]
  have hflag : stopAt env.ramStepsAtStop env.ramStepsAtStop = false :=
    stopAt_after _ _ (le_refl _)
  have h1 : ramRun env.mem (stopAt env.ramStepsAtStop) env.ramStepsAtStop 1
      { pc := RamPc.running, allocations := blocksUpTo env.ramStepsAtStop,
        live := blocksUpTo env.ramStepsAtStop } =
      ({ pc := RamPc.returned, allocations := blocksUpTo env.ramStepsAtStop,
         live := blocksUpTo env.ramStepsAtStop },
       [Event.load Flag.ramLoadRunning false]) := by
    simp [ramRun, ramStep, hflag]
  rw [h1]
  simp only []
  rw [ramRun_returned _ _ _ _ _ rfl]

/-- After the first failed allocation the worker is frozen for good. -/
theorem ram_frozen_of_fail (m : Memory) (f : Nat → Bool) (k0 : Nat)
    (hprev : ∀ k, k < k0 → m.newOk k = true ∧ m.pushOk k = true)
    (hfail : m.newOk k0 = false ∨ m.pushOk k0 = false)
    (hflag : ∀ k, k ≤ k0 → f k = true) (n : Nat) (hn : k0 < n) :
    (ramRun m f 0 n ramInit).1.pc = RamPc.frozen := by
  have e : n = k0 + (1 + (n - k0 - 1)) := by omega
  have hk0 : f k0 = true := hflag _ (le_refl _)
  have hstep := ramStep_fail m
    { pc := RamPc.running, allocations := blocksUpTo k0, live := blocksUpTo k0 } rfl
    (by simpa [blocksUpTo_length] using hfail)
  rw [e, ramRun_add, ramRun_ok m f k0 hprev (fun k hk => hflag k (by omega))]
  simp only []
  rw [ramRun_add]
  have h1 : (ramRun m f (0 + k0) 1
      { pc := RamPc.running, allocations := blocksUpTo k0, live := blocksUpTo k0 }).1 =
      (ramStep m true
        { pc := RamPc.running, allocations := blocksUpTo k0, live := blocksUpTo k0 }).1 := by
    simp [ramRun, hk0]
  simp only []
  rw [h1, ramRun_frozen _ _ _ _ _ hstep.1]
  exact hstep.1

theorem ram_hangs (env : Env) (h : ¬ ramNeverFailed env) (fuel : Nat) :
    (ramWorkerAfterStop env fuel).pc = RamPc.frozen := by
  classical
  have hex : ∃ k, k < env.ramStepsAtStop ∧
      ¬ (env.mem.newOk k = true ∧ env.mem.pushOk k = true) := by
    unfold ramNeverFailed at h
    push_neg at h
    obtain ⟨k, hk, hk2⟩ := h
    exact ⟨k, hk, fun hc => hk2 hc.1 hc.2⟩
  have hspec := Nat.find_spec hex
  have hmin : ∀ k, k < Nat.find hex →
      env.mem.newOk k = true ∧ env.mem.pushOk k = true := by
    intro k hk
    have hnot := Nat.find_min hex hk
    by_contra hc
    exact hnot ⟨by omega, hc⟩
  have hfail : env.mem.newOk (Nat.find hex) = false ∨ env.mem.pushOk (Nat.find hex) = false := by
    have h2 := hspec.2
    cases hn : env.mem.newOk (Nat.find hex)
    · exact Or.inl rfl
    · cases hp : env.mem.pushOk (Nat.find hex)
      · exact Or.inr rfl
      · exact absurd ⟨hn, hp⟩ h2
  unfold ramWorkerAfterStop
  exact ram_frozen_of_fail env.mem _ (Nat.find hex) hmin hfail
    (fun k hk => stopAt_before _ k (by omega)) _ (by omega)

theorem stopAndJoin_ok (env : Env) (h : ramNeverFailed env) (fuel : Nat)
    (hf : INNER_ITERS + 2 ≤ fuel) :
    stopAndJoin env fuel = (STOP_AND_JOIN, none) := by
  have h1 := cpu_returns env fuel hf
  have h2 := ram_returns env h fuel (by omega)
  simp [stopAndJoin, h1, h2, STOP_AND_JOIN]

theorem stopAndJoin_hang (env : Env) (h : ¬ ramNeverFailed env) (fuel : Nat) :
    (stopAndJoin env fuel).2 ≠ none := by
  have h2 := ram_hangs env h fuel
  unfold stopAndJoin
  split_ifs with hc hr
  · rw [h2] at hr; exact absurd hr (by decide)
  · simp
  · simp

theorem stopAndJoin_hang_ram (env : Env) (h : ¬ ramNeverFailed env) (fuel : Nat)
    (hf : INNER_ITERS + 2 ≤ fuel) :
    stopAndJoin env fuel =
      ([Event.store Flag.cpuLoadRunning false, Event.store Flag.ramLoadRunning false,
        Event.join Thread.cpuThread], some Thread.ramThread) := by
  have h1 := cpu_returns env fuel hf
  have h2 := ram_hangs env h fuel
  simp [stopAndJoin, h1, h2]

theorem stopAndJoin_stores (env : Env) (fuel : Nat) :
    (stopAndJoin env fuel).1.filter Event.isStore =
      [Event.store Flag.cpuLoadRunning false, Event.store Flag.ramLoadRunning false] := by
  unfold stopAndJoin
  split_ifs <;> simp [List.filter, Event.isStore]

theorem afterJoin_ne_returned (p : Option Thread) (hp : p ≠ none) (c d : Int) :
    afterJoin p c ≠ Outcome.returned d := by
  cases p with
  | none => exact absurd rfl hp
  | some t => simp [afterJoin]

/-! ## Lemmas on the main thread -/

theorem renderLoop_exit (env : Env) (n : Nat) (k fuel : Nat)
    (hopen : ∀ j, j < n → env.shouldClose (k + j) = false)
    (hclose : env.shouldClose (k + n) = true) (hf : n < fuel) :
    renderLoop env fuel k =
      ((List.replicate n
          (Event.call (Call.glfwWindowShouldClose false) :: frameEvents env)).flatten
        ++ [Event.call (Call.glfwWindowShouldClose true)], true) := by
  induction n generalizing k fuel with
  | zero =>
    obtain ⟨fuel, rfl⟩ : ∃ g, fuel = g + 1 := ⟨fuel - 1, by omega⟩
    have hc : env.shouldClose k = true := by simpa using hclose
    simp [renderLoop, hc]
  | succ n ih =>
    obtain ⟨fuel, rfl⟩ : ∃ g, fuel = g + 1 := ⟨fuel - 1, by omega⟩
    have h0 : env.shouldClose k = false := by simpa using hopen 0 (by omega)
    have ih2 := ih (k + 1) fuel
      (fun j hj => by have := hopen (j + 1) (by omega); rwa [show k + 1 + j = k + (j + 1) by omega])
      (by rwa [show k + 1 + n = k + (n + 1) by omega]) (by omega)
    simp [renderLoop, h0, ih2, List.replicate_succ]

theorem renderLoop_gl (env : Env) (gl2 : GlDriver) (fuel k : Nat) :
    renderLoop { env with gl := gl2 } fuel k = renderLoop env fuel k := by
  induction fuel generalizing k with
  | zero => rfl
  | succ fuel ih => simp [renderLoop, ih, frameEvents]

theorem main_not_returned (env : Env) (h : ¬ ramNeverFailed env) (fuel : Nat) (c : Int) :
    (main env fuel).2 ≠ Outcome.returned c := by
  have hj := stopAndJoin_hang env h fuel
  unfold main
  by_cases h1 : env.glfwInitOk = false
  · rw [if_pos h1]
    exact afterJoin_ne_returned _ hj _ _
  · rw [if_neg h1]
    cases hm : env.videoMode with
    | none => simp
    | some mode =>
      simp only []
      by_cases h2 : env.windowOk = false
      · rw [if_pos h2]
        exact afterJoin_ne_returned _ hj _ _
      · rw [if_neg h2]
        by_cases h3 : env.glewOk = false
        · rw [if_pos h3]
          exact afterJoin_ne_returned _ hj _ _
        · rw [if_neg h3]
          by_cases h4 : (renderLoop env fuel 0).2 = false
          · simp [h4]
          · simp only [h4, if_false]
            cases hs : (stopAndJoin env fuel).2 with
            | none => exact absurd hs hj
            | some t => simp

theorem main_initFail (env : Env) (fuel : Nat) (h1 : env.glfwInitOk = false) :
    main env fuel =
      ([Event.startThread Thread.cpuThread, Event.startThread Thread.ramThread,
        Event.call (Call.glfwInit false), Event.cerr (cstr "Failed to initialize GLFW\n")]
        ++ (stopAndJoin env fuel).1,
       afterJoin (stopAndJoin env fuel).2 (-1)) := by
  unfold main
  rw [if_pos h1]

theorem main_noMode (env : Env) (fuel : Nat) (h1 : env.glfwInitOk = true)
    (hm : env.videoMode = none) :
    main env fuel =
      ([Event.startThread Thread.cpuThread, Event.startThread Thread.ramThread,
        Event.call (Call.glfwInit true),
        Event.call Call.glfwGetPrimaryMonitor,
        Event.call Call.glfwGetVideoMode,
        Event.call (Call.glfwWindowHintContextVersionMajor 3),
        Event.call (Call.glfwWindowHintContextVersionMinor 3),
        Event.call Call.glfwWindowHintOpenglCoreProfile], Outcome.nullDeref) := by
  unfold main
  rw [if_neg (by simp [h1]), hm]

theorem main_windowFail (env : Env) (fuel : Nat) (mode : Nat × Nat)
    (h1 : env.glfwInitOk = true) (hm : env.videoMode = some mode)
    (h2 : env.windowOk = false) :
    main env fuel =
      (windowSetup env mode
        ++ [Event.cerr (cstr "Failed to create GLFW window\n"), Event.call Call.glfwTerminate]
        ++ (stopAndJoin env fuel).1,
       afterJoin (stopAndJoin env fuel).2 (-1)) := by
  unfold main
  rw [if_neg (by simp [h1]), hm]
  simp only []
  rw [if_pos h2]

theorem main_glewFail (env : Env) (fuel : Nat) (mode : Nat × Nat)
    (h1 : env.glfwInitOk = true) (hm : env.videoMode = some mode)
    (h2 : env.windowOk = true) (h3 : env.glewOk = false) :
    main env fuel =
      (windowSetup env mode
        ++ [Event.call Call.glfwMakeContextCurrent, Event.call (Call.glewInit false),
            Event.cerr (cstr "Failed to initialize GLEW\n"), Event.call Call.glfwDestroyWindow,
            Event.call Call.glfwTerminate]
        ++ (stopAndJoin env fuel).1,
       afterJoin (stopAndJoin env fuel).2 (-1)) := by
  unfold main
  rw [if_neg (by simp [h1]), hm]
  simp only []
  rw [if_neg (by simp [h2]), if_pos h3]

/-- Events of `main` before the render loop when startup succeeds. -/
theorem main_started (env : Env) (fuel : Nat) (mode : Nat × Nat)
    (h1 : env.glfwInitOk = true) (hm : env.videoMode = some mode)
    (h2 : env.windowOk = true) (h3 : env.glewOk = true) :
    main env fuel =
      if (renderLoop env fuel 0).2 = false then
        (windowSetup env mode
          ++ [Event.call Call.glfwMakeContextCurrent, Event.call (Call.glewInit true)]
          ++ shaderSetup env ++ bufferSetup env ++ (renderLoop env fuel 0).1,
         Outcome.rendering)
      else
        match (stopAndJoin env fuel).2 with
        | some t =>
          (windowSetup env mode
            ++ [Event.call Call.glfwMakeContextCurrent, Event.call (Call.glewInit true)]
            ++ shaderSetup env ++ bufferSetup env ++ (renderLoop env fuel 0).1
            ++ (stopAndJoin env fuel).1,
           Outcome.joinPending t)
        | none =>
          (windowSetup env mode
            ++ [Event.call Call.glfwMakeContextCurrent, Event.call (Call.glewInit true)]
            ++ shaderSetup env ++ bufferSetup env ++ (renderLoop env fuel 0).1
            ++ (stopAndJoin env fuel).1 ++ cleanup env,
           Outcome.returned 0) := by
  unfold main
  rw [if_neg (by simp [h1]), hm]
  simp only []
  rw [if_neg (by simp [h2]), if_neg (by simp [h3])]

theorem main_closed (env : Env) (fuel : Nat) (mode : Nat × Nat)
    (h1 : env.glfwInitOk = true) (hm : env.videoMode = some mode)
    (h2 : env.windowOk = true) (h3 : env.glewOk = true) (n : Nat)
    (hopen : ∀ j, j < n → env.shouldClose j = false) (hclose : env.shouldClose n = true)
    (hframes : n < fuel) (hram : ramNeverFailed env) (hfuel : INNER_ITERS + 2 ≤ fuel) :
    main env fuel =
      (windowSetup env mode
        ++ [Event.call Call.glfwMakeContextCurrent, Event.call (Call.glewInit true)]
        ++ shaderSetup env ++ bufferSetup env
        ++ ((List.replicate n
              (Event.call (Call.glfwWindowShouldClose false) :: frameEvents env)).flatten
            ++ [Event.call (Call.glfwWindowShouldClose true)])
        ++ STOP_AND_JOIN ++ cleanup env,
       Outcome.returned 0) := by
  have hloop := renderLoop_exit env n 0 fuel (fun j hj => by simpa using hopen j hj)
    (by simpa using hclose) hframes
  rw [main_started env fuel mode h1 hm h2 h3, hloop, stopAndJoin_ok env hram fuel hfuel]
  simp

theorem isSome_videoMode (env : Env) (h : env.videoMode.isSome = true) :
    ∃ mode, env.videoMode = some mode :=
  Option.isSome_iff_exists.mp h

theorem videoMode_cases (env : Env) :
    env.videoMode = none ∨ ∃ mode, env.videoMode = some mode := by
  cases env.videoMode with
  | none => exact Or.inl rfl
  | some mode => exact Or.inr ⟨mode, rfl⟩

theorem main_outcome_gl (env : Env) (gl2 : GlDriver) (fuel : Nat) :
    (main { env with gl := gl2 } fuel).2 = (main env fuel).2 := by
  have hsj : stopAndJoin { env with gl := gl2 } fuel = stopAndJoin env fuel := rfl
  have hrl := renderLoop_gl env gl2 fuel 0
  by_cases h1 : env.glfwInitOk = false
  · rw [main_initFail env fuel h1, main_initFail { env with gl := gl2 } fuel h1, hsj]
  · have h1t : env.glfwInitOk = true := by simpa using h1
    rcases videoMode_cases env with hm | ⟨mode, hm⟩
    · rw [main_noMode env fuel h1t hm, main_noMode { env with gl := gl2 } fuel h1t hm]
    · by_cases h2 : env.windowOk = false
      · rw [main_windowFail env fuel mode h1t hm h2,
          main_windowFail { env with gl := gl2 } fuel mode h1t hm h2, hsj]
      · have h2t : env.windowOk = true := by simpa using h2
        by_cases h3 : env.glewOk = false
        · rw [main_glewFail env fuel mode h1t hm h2t h3,
            main_glewFail { env with gl := gl2 } fuel mode h1t hm h2t h3, hsj]
        · have h3t : env.glewOk = true := by simpa using h3
          rw [main_started env fuel mode h1t hm h2t h3t,
            main_started { env with gl := gl2 } fuel mode h1t hm h2t h3t, hrl, hsj]
          by_cases h4 : (renderLoop env fuel 0).2 = false
          · rw [if_pos h4, if_pos h4]
          · rw [if_neg h4, if_neg h4]
            cases (stopAndJoin env fuel).2 <;> rfl

theorem checkCompileErrors_noStore (gl : GlDriver) (shader : Nat) (type : String) :
    (checkCompileErrors gl shader type).filter Event.isStore = [] := by
  unfold checkCompileErrors
  by_cases ht : type ≠ "PROGRAM"
  · by_cases hs : gl.compileStatus shader = 0 <;> simp [ht, hs, Event.isStore]
  · by_cases hs : gl.linkStatus shader = 0 <;> simp [ht, hs, Event.isStore]

theorem shaderSetup_noStore (env : Env) : (shaderSetup env).filter Event.isStore = [] := by
  simp [shaderSetup, List.filter_append, checkCompileErrors_noStore, Event.isStore]

theorem renderLoop_noStore (env : Env) (fuel k : Nat) :
    (renderLoop env fuel k).1.filter Event.isStore = [] := by
  induction fuel generalizing k with
  | zero => rfl
  | succ fuel ih =>
    unfold renderLoop
    split_ifs
    · simp [Event.isStore]
    · simp [List.filter_append, ih, frameEvents, Event.isStore]

theorem setup_noStore (env : Env) (mode : Nat × Nat) (b : Bool) :
    (windowSetup env mode
      ++ [Event.call Call.glfwMakeContextCurrent, Event.call (Call.glewInit b)]
      ++ shaderSetup env ++ bufferSetup env).filter Event.isStore = [] := by
  simp [List.filter_append, shaderSetup_noStore, windowSetup, bufferSetup, Event.isStore]

/-- The flag writes of a run of `main`: none on the runs that end in the
render loop or at the null video mode (which do not return), else exactly one
store of `false` to each flag, in this order. -/
theorem main_stores (env : Env) (fuel : Nat) :
    ((main env fuel).1.filter Event.isStore = [] ∧ ∀ c, (main env fuel).2 ≠ Outcome.returned c) ∨
    (main env fuel).1.filter Event.isStore =
      [Event.store Flag.cpuLoadRunning false, Event.store Flag.ramLoadRunning false] := by
  have hsj := stopAndJoin_stores env fuel
  by_cases h1 : env.glfwInitOk = false
  · right
    rw [main_initFail env fuel h1]
    simp [List.filter_append, hsj, Event.isStore]
  · have h1t : env.glfwInitOk = true := by simpa using h1
    rcases videoMode_cases env with hm | ⟨mode, hm⟩
    · left
      rw [main_noMode env fuel h1t hm]
      simp [Event.isStore]
    · by_cases h2 : env.windowOk = false
      · right
        rw [main_windowFail env fuel mode h1t hm h2]
        simp [List.filter_append, hsj, windowSetup, Event.isStore]
      · have h2t : env.windowOk = true := by simpa using h2
        by_cases h3 : env.glewOk = false
        · right
          rw [main_glewFail env fuel mode h1t hm h2t h3]
          simp [List.filter_append, hsj, windowSetup, Event.isStore]
        · have h3t : env.glewOk = true := by simpa using h3
          have hs := setup_noStore env mode true
          have hr := renderLoop_noStore env fuel 0
          rw [main_started env fuel mode h1t hm h2t h3t]
          by_cases h4 : (renderLoop env fuel 0).2 = false
          · left
            rw [if_pos h4]
            simp only [List.filter_append, hs, hr]
            simp
          · right
            rw [if_neg h4]
            cases (stopAndJoin env fuel).2 with
            | none =>
              simp only [List.filter_append, hs, hr, hsj]
              simp [cleanup, Event.isStore]
            | some t =>
              simp only [List.filter_append, hs, hr, hsj]
              simp

/-- When every store in a trace writes `false`, a flag that is `false` after a
part of the trace is `false` after the whole trace. -/
theorem flagAfter_mono (f : Flag) (pre post : List Event) (v : Bool)
    (hpost : ∀ g w, Event.store g w ∈ post → w = false)
    (h : flagAfter f v pre = false) : flagAfter f v (pre ++ post) = false := by
  have key : ∀ (l : List Event) (u : Bool), (∀ g w, Event.store g w ∈ l → w = false) →
      u = false → flagAfter f u l = false := by
    intro l
    induction l with
    | nil => intro u _ hu; simpa [flagAfter] using hu
    | cons e l ih =>
      intro u hl hu
      have hl2 : ∀ g w, Event.store g w ∈ l → w = false :=
        fun g w hw => hl g w (List.mem_cons_of_mem _ hw)
      cases e with
      | store g w =>
        have hw : w = false := hl g w (List.mem_cons_self _ _)
        simp only [flagAfter]
        split_ifs
        · exact ih w hl2 hw
        · exact ih u hl2 hu
      | _ => simpa [flagAfter] using ih u hl2 hu
  have app : ∀ (l : List Event) (u : Bool),
      flagAfter f u (l ++ post) = flagAfter f (flagAfter f u l) post := by
    intro l
    induction l with
    | nil => intro u; rfl
    | cons e l ih =>
      intro u
      cases e with
      | store g w =>
        simp only [List.cons_append, flagAfter]
        split_ifs <;> exact ih _
      | _ => simpa [flagAfter] using ih u
  rw [app]
  exact key post _ hpost h

theorem mem_filter_isStore (l : List Event) (g : Flag) (w : Bool)
    (h : Event.store g w ∈ l) : Event.store g w ∈ l.filter Event.isStore := by
  simp [List.mem_filter, h, Event.isStore]

theorem main_store_false (env : Env) (fuel : Nat) (g : Flag) (w : Bool)
    (h : Event.store g w ∈ (main env fuel).1) : w = false := by
  have hm := mem_filter_isStore _ g w h
  rcases main_stores env fuel with ⟨h0, _⟩ | h2
  · rw [h0] at hm; simp at hm
  · rw [h2] at hm
    simp at hm
    rcases hm with ⟨_, hw⟩ | ⟨_, hw⟩ <;> exact hw

theorem cpuStep_noStore (flag : Bool) (s : CpuPc) (g : Flag) (w : Bool) :
    Event.store g w ∉ (cpuStep flag s).2 := by
  cases s with
  | check => cases flag <;> simp [cpuStep]
  | inner i => by_cases hi : i < INNER_ITERS <;> simp [cpuStep, hi]
  | done => simp [cpuStep]

theorem ramStep_noStore (m : Memory) (flag : Bool) (s : RamState) (g : Flag) (w : Bool) :
    Event.store g w ∉ (ramStep m flag s).2 := by
  unfold ramStep
  split
  · split_ifs <;> simp
  · simp
  · simp

theorem stopAndJoin_quiet (env : Env) (fuel : Nat) :
    (stopAndJoin env fuel).1.all (fun e => !e.isCompile && !e.isRender) = true := by
  unfold stopAndJoin
  split_ifs <;> simp [Event.isCompile, Event.isRender]

theorem checkCompileErrors_noShutdown (gl : GlDriver) (shader : Nat) (type : String) :
    (checkCompileErrors gl shader type).all (fun e => !e.isShutdown) = true := by
  unfold checkCompileErrors
  by_cases ht : type ≠ "PROGRAM"
  · by_cases hs : gl.compileStatus shader = 0 <;>
      simp [ht, hs, Event.isShutdown, Event.isStore, Event.isJoin, Event.isCleanup]
  · by_cases hs : gl.linkStatus shader = 0 <;>
      simp [ht, hs, Event.isShutdown, Event.isStore, Event.isJoin, Event.isCleanup]

theorem frames_noShutdown (env : Env) (n : Nat) :
    ((List.replicate n
      (Event.call (Call.glfwWindowShouldClose false) :: frameEvents env)).flatten).all
      (fun e => !e.isShutdown) = true := by
  rw [List.all_eq_true]
  intro e he
  simp only [List.mem_flatten, List.mem_replicate] at he
  obtain ⟨l, ⟨_, rfl⟩, hl⟩ := he
  simp only [frameEvents, List.mem_cons, List.mem_singleton, List.not_mem_nil, or_false] at hl
  rcases hl with rfl | rfl | rfl | rfl | rfl | rfl | rfl <;>
    simp [Event.isShutdown, Event.isStore, Event.isJoin, Event.isCleanup]

/-- The events of `main` before the shutdown sequence, when startup succeeds and
the window is closed after `n` frames, contain no event of the shutdown
sequence. -/
theorem running_noShutdown (env : Env) (mode : Nat × Nat) (n : Nat) :
    (windowSetup env mode
      ++ [Event.call Call.glfwMakeContextCurrent, Event.call (Call.glewInit true)]
      ++ shaderSetup env ++ bufferSetup env
      ++ (List.replicate n
          (Event.call (Call.glfwWindowShouldClose false) :: frameEvents env)).flatten).all
      (fun e => !e.isShutdown) = true := by
  have h1 := frames_noShutdown env n
  have h2 : (shaderSetup env).all (fun e => !e.isShutdown) = true := by
    simp only [shaderSetup, List.all_append, checkCompileErrors_noShutdown, Bool.and_true,
      Bool.true_and]
    simp [Event.isShutdown, Event.isStore, Event.isJoin, Event.isCleanup]
  simp only [List.all_append, h1, h2, Bool.and_true]
  simp [windowSetup, bufferSetup, Event.isShutdown, Event.isStore, Event.isJoin,
    Event.isCleanup]

theorem main_closed_hang (env : Env) (fuel : Nat) (mode : Nat × Nat)
    (h1 : env.glfwInitOk = true) (hm : env.videoMode = some mode)
    (h2 : env.windowOk = true) (h3 : env.glewOk = true) (n : Nat)
    (hopen : ∀ j, j < n → env.shouldClose j = false) (hclose : env.shouldClose n = true)
    (hframes : n < fuel) (hram : ¬ ramNeverFailed env) (hfuel : INNER_ITERS + 2 ≤ fuel) :
    main env fuel =
      (windowSetup env mode
        ++ [Event.call Call.glfwMakeContextCurrent, Event.call (Call.glewInit true)]
        ++ shaderSetup env ++ bufferSetup env
        ++ ((List.replicate n
              (Event.call (Call.glfwWindowShouldClose false) :: frameEvents env)).flatten
            ++ [Event.call (Call.glfwWindowShouldClose true)])
        ++ [Event.store Flag.cpuLoadRunning false, Event.store Flag.ramLoadRunning false,
            Event.join Thread.cpuThread],
       Outcome.joinPending Thread.ramThread) := by
  have hloop := renderLoop_exit env n 0 fuel (fun j hj => by simpa using hopen j hj)
    (by simpa using hclose) hframes
  rw [main_started env fuel mode h1 hm h2 h3, hloop, stopAndJoin_hang_ram env hram fuel hfuel]
  simp

theorem renderLoop_head (env : Env) (fuel : Nat) (hfuel : 1 ≤ fuel) :
    ∃ rest, (renderLoop env fuel 0).1 =
      Event.call (Call.glfwWindowShouldClose (env.shouldClose 0)) :: rest := by
  obtain ⟨g, rfl⟩ : ∃ g, fuel = g + 1 := ⟨fuel - 1, by omega⟩
  by_cases hc : env.shouldClose 0 = true
  · exact ⟨[], by simp [renderLoop, hc]⟩
  · exact ⟨frameEvents env ++ (renderLoop env g 1).1, by simp [renderLoop, hc]⟩

theorem stopAndJoin_noDraw (env : Env) (fuel : Nat) :
    (stopAndJoin env fuel).1.all (fun e => !e.isDraw) = true := by
  unfold stopAndJoin
  split_ifs <;> simp [Event.isDraw]

/-- When startup succeeds, the trace of `main` is the setup followed by the
events of the render loop and possibly more events, none of them a draw, and
`main` can only return 0. -/
theorem main_started_shape (env : Env) (fuel : Nat) (mode : Nat × Nat)
    (h1 : env.glfwInitOk = true) (hm : env.videoMode = some mode)
    (h2 : env.windowOk = true) (h3 : env.glewOk = true) :
    (∃ more, more.all (fun e => !e.isDraw) = true ∧ (main env fuel).1 =
      windowSetup env mode
        ++ [Event.call Call.glfwMakeContextCurrent, Event.call (Call.glewInit true)]
        ++ shaderSetup env ++ bufferSetup env ++ (renderLoop env fuel 0).1 ++ more) ∧
    ∀ c, (main env fuel).2 = Outcome.returned c → c = 0 := by
  have hsjd := stopAndJoin_noDraw env fuel
  rw [main_started env fuel mode h1 hm h2 h3]
  by_cases h4 : (renderLoop env fuel 0).2 = false
  · rw [if_pos h4]
    exact ⟨⟨[], rfl, by simp⟩, fun c hc => by simp at hc⟩
  · rw [if_neg h4]
    cases hsj : (stopAndJoin env fuel).2 with
    | none =>
      refine ⟨⟨(stopAndJoin env fuel).1 ++ cleanup env, ?_, by simp [List.append_assoc]⟩, ?_⟩
      · rw [List.all_append, hsjd]
        simp [cleanup, Event.isDraw]
      · intro c hc
        simp only [Outcome.returned.injEq] at hc
        exact hc.symm
    | some t =>
      exact ⟨⟨(stopAndJoin env fuel).1, hsjd, by simp [List.append_assoc]⟩,
        fun c hc => by simp at hc⟩

/-! ## Lemmas on the frames drawn -/

theorem triangleAt_zero : triangleAt 0 = ((-1, 1), (-1, -1), (1, -1)) := by decide

theorem triangleAt_one : triangleAt 1 = ((-1, 1), (1, -1), (1, 1)) := by decide

theorem inDrawnTriangle_zero {K : Type} [LinearOrderedField K] (p : K × K) :
    inDrawnTriangle 0 p ↔ (-1 ≤ p.1 ∧ -1 ≤ p.2 ∧ p.1 + p.2 ≤ 0) := by
  have e1 : edgeFn ((-1 : K), (1 : K)) ((-1 : K), (-1 : K)) p = 2 * (p.1 + 1) := by
    simp only [edgeFn]; ring
  have e2 : edgeFn ((-1 : K), (-1 : K)) ((1 : K), (-1 : K)) p = 2 * (p.2 + 1) := by
    simp only [edgeFn]; ring
  have e3 : edgeFn ((1 : K), (-1 : K)) ((-1 : K), (1 : K)) p = -(2 * (p.1 + p.2)) := by
    simp only [edgeFn]; ring
  simp only [inDrawnTriangle, inTriangle, triangleAt_zero, clipPos, Int.cast_neg, Int.cast_one,
    e1, e2, e3]
  constructor
  · rintro (⟨h1, h2, h3⟩ | ⟨h1, h2, h3⟩)
    · exact ⟨by linarith, by linarith, by linarith⟩
    · exact ⟨by linarith, by linarith, by linarith⟩
  · rintro ⟨h1, h2, h3⟩
    exact Or.inl ⟨by linarith, by linarith, by linarith⟩

theorem inDrawnTriangle_one {K : Type} [LinearOrderedField K] (p : K × K) :
    inDrawnTriangle 1 p ↔ (p.1 ≤ 1 ∧ p.2 ≤ 1 ∧ 0 ≤ p.1 + p.2) := by
  have e1 : edgeFn ((-1 : K), (1 : K)) ((1 : K), (-1 : K)) p = 2 * (p.1 + p.2) := by
    simp only [edgeFn]; ring
  have e2 : edgeFn ((1 : K), (-1 : K)) ((1 : K), (1 : K)) p = 2 * (1 - p.1) := by
    simp only [edgeFn]; ring
  have e3 : edgeFn ((1 : K), (1 : K)) ((-1 : K), (1 : K)) p = 2 * (1 - p.2) := by
    simp only [edgeFn]; ring
  simp only [inDrawnTriangle, inTriangle, triangleAt_one, clipPos, Int.cast_neg, Int.cast_one,
    e1, e2, e3]
  constructor
  · rintro (⟨h1, h2, h3⟩ | ⟨h1, h2, h3⟩)
    · exact ⟨by linarith, by linarith, by linarith⟩
    · exact ⟨by linarith, by linarith, by linarith⟩
  · rintro ⟨h1, h2, h3⟩
    exact Or.inl ⟨by linarith, by linarith, by linarith⟩

/-- C4: `cpuLoadThread` reads `cpuLoadRunning` once per pass of the outer loop
and runs exactly 1,000,000 inner iterations in that pass. If the flag reads
`false` from worker step `T` on, then from the state the worker is in at step
`T` it returns within `INNER_ITERS + 2` steps, during which it runs at most
1,000,000 inner iterations and reads the flag at most once, and it does nothing
afterwards; if the flag is already `false` at the first check, it returns
without running any inner iteration. -/
theorem C4_cpu_worker_stop_latency (flagAt : Nat → Bool) (T : Nat)
    (hstop : ∀ t, T ≤ t → flagAt t = false) :
    INNER_ITERS = 1000000 ∧
    (∀ t, flagAt t = true →
      cpuRun flagAt t (INNER_ITERS + 2) CpuPc.check =
        (CpuPc.check,
         Event.load Flag.cpuLoadRunning true ::
           (List.range' 0 INNER_ITERS).map Event.innerIter)) ∧
    (∃ k, k ≤ INNER_ITERS + 2 ∧
      (cpuRun flagAt T k (cpuRun flagAt 0 T cpuInit).1).1 = CpuPc.done ∧
      (cpuRun flagAt T k (cpuRun flagAt 0 T cpuInit).1).2.countP Event.isInnerIter
        ≤ 1000000 ∧
      (cpuRun flagAt T k (cpuRun flagAt 0 T cpuInit).1).2.countP Event.isLoad ≤ 1 ∧
      ∀ n, cpuRun flagAt (T + k) n CpuPc.done = (CpuPc.done, [])) ∧
    (T = 0 →
      cpuRun flagAt 0 1 cpuInit = (CpuPc.done, [Event.load Flag.cpuLoadRunning false])) := by
  refine ⟨rfl, ?_, ?_, ?_⟩
  · intro t ht
    have e : INNER_ITERS + 2 = 1 + (INNER_ITERS + 1) := by omega
    have h0 : 0 + INNER_ITERS ≤ INNER_ITERS := by omega
    rw [e, cpuRun_add]
    have h1 : cpuRun flagAt t 1 CpuPc.check =
        (CpuPc.inner 0, [Event.load Flag.cpuLoadRunning true]) := by
      simp [cpuRun, cpuStep, ht]
    rw [h1]
    simp only []
    rw [cpuRun_add, cpuRun_inner flagAt INNER_ITERS (t + 1) 0 h0]
    simp [cpuRun, cpuStep]
  · have hwf : (cpuRun flagAt 0 T cpuInit).1.wf := cpuRun_wf flagAt T 0 cpuInit trivial
    obtain ⟨k, hk, hd, hi, hl⟩ := cpu_stops flagAt T hstop _ hwf
    exact ⟨k, hk, hd, hi, hl, fun n => cpuRun_done flagAt (T + k) n⟩
  · intro hT
    have h0 : flagAt 0 = false := hstop 0 (by omega)
    simp [cpuRun, cpuStep, cpuInit, h0]

/-- Instance of C4: the flag is cleared when the worker has taken three steps. -/
theorem C4_cpu_worker_stop_latency_witness :
    (∀ t, 3 ≤ t → stopAt 3 t = false) ∧
    ∃ k, k ≤ INNER_ITERS + 2 ∧
      (cpuRun (stopAt 3) 3 k (cpuRun (stopAt 3) 0 3 cpuInit).1).1 = CpuPc.done ∧
      (cpuRun (stopAt 3) 3 k (cpuRun (stopAt 3) 0 3 cpuInit).1).2.countP Event.isInnerIter
        ≤ 1000000 :=
  ⟨fun t h => stopAt_after 3 t h,
   match (C4_cpu_worker_stop_latency (stopAt 3) 3 (fun t h => stopAt_after 3 t h)).2.2.1 with
   | ⟨k, hk, hd, hi, _⟩ => ⟨k, hk, hd, hi⟩⟩

/-- C3: while no allocation fails and `ramLoadRunning` reads `true`, each pass of
the loop of `ramLoadThread` reads the flag once, allocates one block of exactly
10 * 1024 * 1024 = 10,485,760 bytes, appends it and sleeps 100 ms; after `n`
passes the vector holds exactly the `n` blocks, in allocation order, totalling
10,485,760 * n bytes, and every block allocated is still live. When the next
read of the flag gives `false`, the worker returns and performs nothing else:
in particular it allocates nothing more. -/
theorem C3_ram_worker_normal_path (m : Memory) (flagAt : Nat → Bool) (n : Nat)
    (hmem : ∀ k, k < n → m.newOk k = true ∧ m.pushOk k = true)
    (hflag : ∀ k, k < n → flagAt k = true) :
    BLOCK_SIZE = 10485760 ∧ ALLOC_INTERVAL_MS = 100 ∧
    (ramRun m flagAt 0 n ramInit).2 = allocPasses n ∧
    (∀ k, allocPass k =
      [Event.load Flag.ramLoadRunning true, Event.newBlock { id := k, size := 10485760 },
       Event.pushBack { id := k, size := 10485760 }, Event.sleepMs 100]) ∧
    (ramRun m flagAt 0 n ramInit).1.pc = RamPc.running ∧
    (ramRun m flagAt 0 n ramInit).1.allocations = blocksUpTo n ∧
    (ramRun m flagAt 0 n ramInit).1.allocations.length = n ∧
    (ramRun m flagAt 0 n ramInit).1.allocations.map Block.id = List.range n ∧
    (∀ b, b ∈ (ramRun m flagAt 0 n ramInit).1.allocations → b.size = 10485760) ∧
    totalBytes (ramRun m flagAt 0 n ramInit).1.allocations = 10485760 * n ∧
    (ramRun m flagAt 0 n ramInit).1.live = (ramRun m flagAt 0 n ramInit).1.allocations ∧
    (flagAt n = false → ∀ j,
      ramRun m flagAt n (j + 1) (ramRun m flagAt 0 n ramInit).1 =
        ({ pc := RamPc.returned, allocations := blocksUpTo n, live := blocksUpTo n },
         [Event.load Flag.ramLoadRunning false])) := by
  have hrun := ramRun_ok m flagAt n hmem hflag
  refine ⟨rfl, rfl, by rw [hrun], fun k => rfl, by rw [hrun], by rw [hrun], ?_, ?_, ?_, ?_,
    by rw [hrun], ?_⟩
  · rw [hrun]; exact blocksUpTo_length n
  · rw [hrun]; simp [blocksUpTo, Function.comp_def]
  · rw [hrun]; intro b hb
    simp only [blocksUpTo, List.mem_map] at hb
    obtain ⟨k, _, rfl⟩ := hb
    rfl
  · rw [hrun]; exact totalBytes_blocksUpTo n
  · intro hn j
    rw [hrun]
    have e : j + 1 = 1 + j := by omega
    rw [e, ramRun_add]
    have h1 : ramRun m flagAt n 1
        { pc := RamPc.running, allocations := blocksUpTo n, live := blocksUpTo n } =
        ({ pc := RamPc.returned, allocations := blocksUpTo n, live := blocksUpTo n },
         [Event.load Flag.ramLoadRunning false]) := by
      simp [ramRun, ramStep, hn]
    rw [h1]
    simp only []
    rw [ramRun_returned m flagAt (n + 1) j _ rfl]
    simp

/-- Instance of C3: three successful passes, then the flag reads `false`. -/
theorem C3_ram_worker_normal_path_witness :
    (ramRun memAlways (stopAt 3) 0 3 ramInit).1.allocations =
      [{ id := 0, size := 10485760 }, { id := 1, size := 10485760 },
       { id := 2, size := 10485760 }] ∧
    totalBytes (ramRun memAlways (stopAt 3) 0 3 ramInit).1.allocations = 10485760 * 3 :=
  ⟨(C3_ram_worker_normal_path memAlways (stopAt 3) 3 (fun _ _ => ⟨rfl, rfl⟩)
      (fun k h => stopAt_before 3 k h)).2.2.2.2.2.1,
   (C3_ram_worker_normal_path memAlways (stopAt 3) 3 (fun _ _ => ⟨rfl, rfl⟩)
      (fun k h => stopAt_before 3 k h)).2.2.2.2.2.2.2.2.2.1⟩

/-- C2: when an allocation of `ramLoadThread` fails (`new` or `push_back` throws
`std::bad_alloc`), the worker enters the handler and stays there: every later
step is a one-second sleep, it reads no flag and allocates nothing, the vector
and the live blocks never change (nothing is released), and it never returns,
whatever value `ramLoadRunning` has afterwards. So once an allocation has
failed before the worker sees the store of `false`, `ramThread.join()` does not
complete for any budget (while `cpuThread.join()` does) and `main` never
returns. -/
theorem C2_ram_worker_terminal (m : Memory) (s : RamState) (hpc : s.pc = RamPc.running)
    (hfail : m.newOk s.live.length = false ∨ m.pushOk s.allocations.length = false) :
    (ramStep m true s).1.pc = RamPc.frozen ∧
    (ramStep m true s).1.allocations = s.allocations ∧
    s.live <+: (ramStep m true s).1.live ∧
    (∀ (flagAt : Nat → Bool) (t n : Nat),
      ramRun m flagAt t n (ramStep m true s).1 =
        ((ramStep m true s).1, List.replicate n (Event.sleepMs 1000))) ∧
    (∀ (flagAt : Nat → Bool) (t n : Nat),
      (ramRun m flagAt t n (ramStep m true s).1).1.pc ≠ RamPc.returned ∧
      (ramRun m flagAt t n (ramStep m true s).1).2.all
        (fun e => !e.isLoad && !e.isAllocation) = true) ∧
    (∀ (env : Env) (fuel : Nat), ¬ ramNeverFailed env →
      (ramWorkerAfterStop env fuel).pc = RamPc.frozen ∧
      (stopAndJoin env fuel).2 ≠ none ∧
      (INNER_ITERS + 2 ≤ fuel → (stopAndJoin env fuel).2 = some Thread.ramThread) ∧
      ∀ c, (main env fuel).2 ≠ Outcome.returned c) := by
  have hstep := ramStep_fail m s hpc hfail
  refine ⟨hstep.1, hstep.2.1, hstep.2.2, ?_, ?_, ?_⟩
  · intro flagAt t n
    exact ramRun_frozen m flagAt t n _ hstep.1
  · intro flagAt t n
    rw [ramRun_frozen m flagAt t n _ hstep.1]
    refine ⟨by simp [hstep.1], ?_⟩
    simp [List.all_eq_true, List.mem_replicate, Event.isLoad, Event.isAllocation]
  · intro env fuel h
    refine ⟨ram_hangs env h fuel, stopAndJoin_hang env h fuel, ?_, main_not_returned env h fuel⟩
    intro hf
    rw [stopAndJoin_hang_ram env h fuel hf]

/-- Instance of C2: the very first allocation fails. -/
theorem C2_ram_worker_terminal_witness :
    ramInit.pc = RamPc.running ∧ memNever.newOk ramInit.live.length = false ∧
    (ramStep memNever true ramInit).1.pc = RamPc.frozen ∧
    ∀ n, ramRun memNever (fun _ => false) 0 n (ramStep memNever true ramInit).1 =
      ((ramStep memNever true ramInit).1, List.replicate n (Event.sleepMs 1000)) :=
  ⟨rfl, rfl, (C2_ram_worker_terminal memNever ramInit rfl (Or.inl rfl)).1,
   fun n => (C2_ram_worker_terminal memNever ramInit rfl (Or.inl rfl)).2.2.2.1
     (fun _ => false) 0 n⟩

/-! ## Startup failures: claim C1 -/

theorem envInitFailOom_failed : ¬ ramNeverFailed envInitFailOom := by
  intro h
  have h0 := (h 0 (by decide)).1
  simp [envInitFailOom, memNever] at h0

theorem envWindowFailOom_failed : ¬ ramNeverFailed envWindowFailOom := by
  intro h
  have h0 := (h 0 (by decide)).1
  simp [envWindowFailOom, memNever] at h0

theorem envCloseOom_failed : ¬ ramNeverFailed envCloseOom := by
  intro h
  have h2 := (h 2 (by decide)).1
  simp [envCloseOom, envNormal, memTwoBlocks] at h2

theorem envNormalOom_failed : ¬ ramNeverFailed envNormalOom := by
  intro h
  have h2 := (h 2 (by decide)).1
  simp [envNormalOom, envNormal, memTwoBlocks] at h2

theorem envShaderFailOom_failed : ¬ ramNeverFailed envShaderFailOom := by
  intro h
  have h0 := (h 0 (by decide)).1
  simp [envShaderFailOom, memNever] at h0

/-- C1 as stated fails: with `glfwInit` failing while the first allocation of
the RAM worker has already failed, `main` sets both flags, joins the CPU
thread and then stays in `ramThread.join()`; it never returns. -/
theorem C1_counterexample :
    startupFailure envInitFailOom ∧
    (¬ ∃ fuel, (main envInitFailOom fuel).2 = Outcome.returned (-1)) ∧
    ∀ fuel, INNER_ITERS + 2 ≤ fuel →
      main envInitFailOom fuel =
        ([Event.startThread Thread.cpuThread, Event.startThread Thread.ramThread,
          Event.call (Call.glfwInit false), Event.cerr (cstr "Failed to initialize GLFW\n"),
          Event.store Flag.cpuLoadRunning false, Event.store Flag.ramLoadRunning false,
          Event.join Thread.cpuThread],
         Outcome.joinPending Thread.ramThread) := by
  have hoom := envInitFailOom_failed
  refine ⟨Or.inl rfl, ?_, ?_⟩
  · rintro ⟨fuel, hfuel⟩
    exact main_not_returned envInitFailOom hoom fuel (-1) hfuel
  · intro fuel hfuel
    rw [main_initFail envInitFailOom fuel rfl, stopAndJoin_hang_ram envInitFailOom hoom fuel hfuel]
    rfl

/-- C1 (amended): on each of the three startup failures `main` compiles no
shader and performs no event of the render loop, whatever the workers do. Once
the joins have been given enough worker steps, its trace is the events up to
the failure (which contain no flag write and no join), followed by the store
of `false` to `cpuLoadRunning`, the store of `false` to `ramLoadRunning` and
the join of the CPU thread; when no allocation of the RAM worker has failed
before the worker sees the store, the join of the RAM thread follows and
`main` returns -1 (non-zero); when one has failed, `main` is blocked in
`ramThread.join()` and returns for no budget. -/
theorem C1_startup_failure_returns (env : Env) (hfail : startupFailure env)
    (fuel : Nat) (hfuel : INNER_ITERS + 2 ≤ fuel) :
    (-1 : Int) ≠ 0 ∧
    (∀ fuel2, (main env fuel2).1.all (fun e => !e.isCompile && !e.isRender) = true) ∧
    (∃ pre,
      ((env.glfwInitOk = false ∧
          pre = [Event.startThread Thread.cpuThread, Event.startThread Thread.ramThread,
            Event.call (Call.glfwInit false),
            Event.cerr (cstr "Failed to initialize GLFW\n")]) ∨
        (∃ mode, env.glfwInitOk = true ∧ env.videoMode = some mode ∧ env.windowOk = false ∧
          pre = [Event.startThread Thread.cpuThread, Event.startThread Thread.ramThread,
            Event.call (Call.glfwInit true), Event.call Call.glfwGetPrimaryMonitor,
            Event.call Call.glfwGetVideoMode,
            Event.call (Call.glfwWindowHintContextVersionMajor 3),
            Event.call (Call.glfwWindowHintContextVersionMinor 3),
            Event.call Call.glfwWindowHintOpenglCoreProfile,
            Event.call (Call.glfwCreateWindow mode.1 mode.2 "Huge Stress Test" false),
            Event.cerr (cstr "Failed to create GLFW window\n"),
            Event.call Call.glfwTerminate]) ∨
        (∃ mode, env.glfwInitOk = true ∧ env.videoMode = some mode ∧ env.windowOk = true ∧
          env.glewOk = false ∧
          pre = [Event.startThread Thread.cpuThread, Event.startThread Thread.ramThread,
            Event.call (Call.glfwInit true), Event.call Call.glfwGetPrimaryMonitor,
            Event.call Call.glfwGetVideoMode,
            Event.call (Call.glfwWindowHintContextVersionMajor 3),
            Event.call (Call.glfwWindowHintContextVersionMinor 3),
            Event.call Call.glfwWindowHintOpenglCoreProfile,
            Event.call (Call.glfwCreateWindow mode.1 mode.2 "Huge Stress Test" true),
            Event.call Call.glfwMakeContextCurrent, Event.call (Call.glewInit false),
            Event.cerr (cstr "Failed to initialize GLEW\n"),
            Event.call Call.glfwDestroyWindow, Event.call Call.glfwTerminate])) ∧
      pre.all (fun e => !e.isStore && !e.isJoin) = true ∧
      (ramNeverFailed env →
        main env fuel =
          (pre ++ [Event.store Flag.cpuLoadRunning false,
                   Event.store Flag.ramLoadRunning false,
                   Event.join Thread.cpuThread, Event.join Thread.ramThread],
           Outcome.returned (-1))) ∧
      (¬ ramNeverFailed env →
        main env fuel =
          (pre ++ [Event.store Flag.cpuLoadRunning false,
                   Event.store Flag.ramLoadRunning false,
                   Event.join Thread.cpuThread],
           Outcome.joinPending Thread.ramThread))) ∧
    (¬ ramNeverFailed env → ∀ fuel2 c, (main env fuel2).2 ≠ Outcome.returned c) := by
  refine ⟨by decide, ?_, ?_, fun h fuel2 c => main_not_returned env h fuel2 c⟩
  · intro fuel2
    have hq := stopAndJoin_quiet env fuel2
    rcases hfail with h1 | ⟨h1, hm, h2⟩ | ⟨h1, hm, h2, h3⟩
    · rw [main_initFail env fuel2 h1]
      simp only [List.all_append, hq, Bool.and_true]
      simp [Event.isCompile, Event.isRender]
    · obtain ⟨mode, hmode⟩ := isSome_videoMode env hm
      rw [main_windowFail env fuel2 mode h1 hmode h2]
      simp only [List.all_append, hq, Bool.and_true]
      simp [windowSetup, Event.isCompile, Event.isRender]
    · obtain ⟨mode, hmode⟩ := isSome_videoMode env hm
      rw [main_glewFail env fuel2 mode h1 hmode h2 h3]
      simp only [List.all_append, hq, Bool.and_true]
      simp [windowSetup, Event.isCompile, Event.isRender]
  · rcases hfail with h1 | ⟨h1, hm, h2⟩ | ⟨h1, hm, h2, h3⟩
    · refine ⟨_, Or.inl ⟨h1, rfl⟩, by simp [Event.isStore, Event.isJoin], ?_, ?_⟩
      · intro hram
        rw [main_initFail env fuel h1, stopAndJoin_ok env hram fuel hfuel]
        rfl
      · intro hram
        rw [main_initFail env fuel h1, stopAndJoin_hang_ram env hram fuel hfuel]
        rfl
    · obtain ⟨mode, hmode⟩ := isSome_videoMode env hm
      refine ⟨_, Or.inr (Or.inl ⟨mode, h1, hmode, h2, rfl⟩),
        by simp [Event.isStore, Event.isJoin], ?_, ?_⟩
      · intro hram
        rw [main_windowFail env fuel mode h1 hmode h2, stopAndJoin_ok env hram fuel hfuel]
        simp [windowSetup, STOP_AND_JOIN, h2, afterJoin]
      · intro hram
        rw [main_windowFail env fuel mode h1 hmode h2,
          stopAndJoin_hang_ram env hram fuel hfuel]
        simp [windowSetup, h2, afterJoin]
    · obtain ⟨mode, hmode⟩ := isSome_videoMode env hm
      refine ⟨_, Or.inr (Or.inr ⟨mode, h1, hmode, h2, h3, rfl⟩),
        by simp [Event.isStore, Event.isJoin], ?_, ?_⟩
      · intro hram
        rw [main_glewFail env fuel mode h1 hmode h2 h3, stopAndJoin_ok env hram fuel hfuel]
        simp [windowSetup, STOP_AND_JOIN, h2, afterJoin]
      · intro hram
        rw [main_glewFail env fuel mode h1 hmode h2 h3,
          stopAndJoin_hang_ram env hram fuel hfuel]
        simp [windowSetup, h2, afterJoin]

/-- Instance of C1 (amended): `glfwCreateWindow` fails; without a failed
allocation `main` returns -1, with one it is blocked in the join of the RAM
thread, and in both runs no shader is compiled. -/
theorem C1_startup_failure_returns_witness :
    startupFailure envWindowFail ∧ ramNeverFailed envWindowFail ∧
    (main envWindowFail (INNER_ITERS + 2)).2 = Outcome.returned (-1) ∧
    startupFailure envWindowFailOom ∧ ¬ ramNeverFailed envWindowFailOom ∧
    (main envWindowFailOom (INNER_ITERS + 2)).2 = Outcome.joinPending Thread.ramThread ∧
    (main envWindowFailOom (INNER_ITERS + 2)).1.all
      (fun e => !e.isCompile && !e.isRender) = true :=
  have hA := C1_startup_failure_returns envWindowFail (Or.inr (Or.inl ⟨rfl, rfl, rfl⟩))
    (INNER_ITERS + 2) (le_refl _)
  have hB := C1_startup_failure_returns envWindowFailOom (Or.inr (Or.inl ⟨rfl, rfl, rfl⟩))
    (INNER_ITERS + 2) (le_refl _)
  ⟨Or.inr (Or.inl ⟨rfl, rfl, rfl⟩), fun _ _ => ⟨rfl, rfl⟩,
   match hA.2.2.1 with
   | ⟨_, _, _, hret, _⟩ => by rw [hret (fun _ _ => ⟨rfl, rfl⟩)],
   Or.inr (Or.inl ⟨rfl, rfl, rfl⟩), envWindowFailOom_failed,
   match hB.2.2.1 with
   | ⟨_, _, _, _, hhang⟩ => by rw [hhang envWindowFailOom_failed],
   hB.2.1 (INNER_ITERS + 2)⟩

/-! ## Normal shutdown: claims C5 and C6 -/

/-- C5 as stated fails: the window is closed at the first test of the loop
condition while the third allocation of the RAM worker has failed; `main` sets
both flags, joins the CPU thread and then stays in `ramThread.join()`: the
vertex array, the buffer and the program are not deleted, GLFW is not
terminated, and `main` never returns. -/
theorem C5_counterexample :
    startupOk envCloseOom ∧ envCloseOom.shouldClose 0 = true ∧
    (¬ ∃ fuel, (main envCloseOom fuel).2 = Outcome.returned 0) ∧
    ∀ fuel, INNER_ITERS + 2 ≤ fuel →
      (main envCloseOom fuel).2 = Outcome.joinPending Thread.ramThread ∧
      (main envCloseOom fuel).1 =
        windowSetup envCloseOom (1920, 1080)
          ++ [Event.call Call.glfwMakeContextCurrent, Event.call (Call.glewInit true)]
          ++ shaderSetup envCloseOom ++ bufferSetup envCloseOom
          ++ [Event.call (Call.glfwWindowShouldClose true),
              Event.store Flag.cpuLoadRunning false, Event.store Flag.ramLoadRunning false,
              Event.join Thread.cpuThread] := by
  refine ⟨⟨rfl, rfl, rfl, rfl⟩, rfl, ?_, ?_⟩
  · rintro ⟨fuel, hfuel⟩
    exact main_not_returned envCloseOom envCloseOom_failed fuel 0 hfuel
  · intro fuel hfuel
    have hloop := renderLoop_exit envCloseOom 0 0 fuel (fun j hj => absurd hj (by omega)) rfl
      (by omega)
    rw [main_started envCloseOom fuel (1920, 1080) rfl rfl rfl rfl, hloop,
      stopAndJoin_hang_ram envCloseOom envCloseOom_failed fuel hfuel]
    simp

/-- C5 (amended): when the render loop is left because `glfwWindowShouldClose`
returns true, the trace of `main` is the setup and the frames drawn (a part
without any event of the shutdown sequence), the test of the loop condition
that gave true, and then the store of
`false` to `cpuLoadRunning`, the store of `false` to `ramLoadRunning` and the
join of the CPU thread. When no allocation of the RAM worker has failed before
the worker sees the store, there follow, in this order, the join of the RAM
thread, the deletion of the vertex array, of the buffer and of the program, the
destruction of the window and the termination of GLFW, and `main` returns 0.
When one has failed, nothing follows: `main` is blocked in `ramThread.join()`,
none of the five releases happens, and `main` returns for no budget. -/
theorem C5_shutdown_order (env : Env) (hok : startupOk env) (n : Nat)
    (hopen : ∀ j, j < n → env.shouldClose j = false) (hclose : env.shouldClose n = true)
    (fuel : Nat) (hframes : n < fuel) (hfuel : INNER_ITERS + 2 ≤ fuel) :
    (∃ mode pre, env.videoMode = some mode ∧
      pre = windowSetup env mode
        ++ [Event.call Call.glfwMakeContextCurrent, Event.call (Call.glewInit true)]
        ++ shaderSetup env ++ bufferSetup env
        ++ (List.replicate n
            (Event.call (Call.glfwWindowShouldClose false) ::
              [Event.call Call.glClear, Event.call (Call.glUseProgram env.createProgram),
               Event.call (Call.glBindVertexArray env.genVertexArray),
               Event.call (Call.glDrawArrays 0 6), Event.call Call.glfwSwapBuffers,
               Event.call Call.glfwPollEvents])).flatten ∧
      pre.all (fun e => !e.isShutdown) = true ∧
      (ramNeverFailed env →
        main env fuel =
          (pre ++ [Event.call (Call.glfwWindowShouldClose true),
            Event.store Flag.cpuLoadRunning false, Event.store Flag.ramLoadRunning false,
            Event.join Thread.cpuThread, Event.join Thread.ramThread,
            Event.call (Call.glDeleteVertexArrays 1 env.genVertexArray),
            Event.call (Call.glDeleteBuffers 1 env.genBuffer),
            Event.call (Call.glDeleteProgram env.createProgram),
            Event.call Call.glfwDestroyWindow,
            Event.call Call.glfwTerminate],
           Outcome.returned 0)) ∧
      (¬ ramNeverFailed env →
        main env fuel =
          (pre ++ [Event.call (Call.glfwWindowShouldClose true),
            Event.store Flag.cpuLoadRunning false, Event.store Flag.ramLoadRunning false,
            Event.join Thread.cpuThread],
           Outcome.joinPending Thread.ramThread))) ∧
    (¬ ramNeverFailed env →
      (main env fuel).1.all (fun e => !e.isCleanup) = true ∧
      ∀ fuel2 c, (main env fuel2).2 ≠ Outcome.returned c) := by
  obtain ⟨h1, hm, h2, h3⟩ := hok
  obtain ⟨mode, hmode⟩ := isSome_videoMode env hm
  have hpre := running_noShutdown env mode n
  refine ⟨⟨mode, _, hmode, rfl, hpre, ?_, ?_⟩, ?_⟩
  · intro hram
    rw [main_closed env fuel mode h1 hmode h2 h3 n hopen hclose hframes hram hfuel]
    simp [STOP_AND_JOIN, cleanup, List.append_assoc, frameEvents, DRAW_COUNT]
  · intro hram
    rw [main_closed_hang env fuel mode h1 hmode h2 h3 n hopen hclose hframes hram hfuel]
    simp [List.append_assoc, frameEvents, DRAW_COUNT]
  · intro hram
    refine ⟨?_, fun fuel2 c => main_not_returned env hram fuel2 c⟩
    have hmain : main env fuel =
        ((windowSetup env mode
          ++ [Event.call Call.glfwMakeContextCurrent, Event.call (Call.glewInit true)]
          ++ shaderSetup env ++ bufferSetup env
          ++ (List.replicate n
              (Event.call (Call.glfwWindowShouldClose false) :: frameEvents env)).flatten)
          ++ [Event.call (Call.glfwWindowShouldClose true),
              Event.store Flag.cpuLoadRunning false, Event.store Flag.ramLoadRunning false,
              Event.join Thread.cpuThread],
         Outcome.joinPending Thread.ramThread) := by
      rw [main_closed_hang env fuel mode h1 hmode h2 h3 n hopen hclose hframes hram hfuel]
      simp [List.append_assoc]
    rw [hmain, List.all_append]
    have hpre2 : (windowSetup env mode
        ++ [Event.call Call.glfwMakeContextCurrent, Event.call (Call.glewInit true)]
        ++ shaderSetup env ++ bufferSetup env
        ++ (List.replicate n
            (Event.call (Call.glfwWindowShouldClose false) :: frameEvents env)).flatten).all
        (fun e => !e.isCleanup) = true := by
      rw [List.all_eq_true] at hpre ⊢
      intro e he
      have := hpre e he
      simp only [Event.isShutdown, Bool.not_eq_true', Bool.or_eq_false_iff] at this
      simp [this.2]
    rw [hpre2]
    simp [Event.isCleanup]

/-- Instance of C5 (amended): the window is closed after two frames; without a
failed allocation `main` returns 0, with one it is blocked and releases
nothing. -/
theorem C5_shutdown_order_witness :
    startupOk envNormal ∧ envNormal.shouldClose 2 = true ∧ ramNeverFailed envNormal ∧
    (main envNormal (INNER_ITERS + 2)).2 = Outcome.returned 0 ∧
    startupOk envNormalOom ∧ envNormalOom.shouldClose 2 = true ∧
    ¬ ramNeverFailed envNormalOom ∧
    (main envNormalOom (INNER_ITERS + 2)).1.all (fun e => !e.isCleanup) = true :=
  have hA := C5_shutdown_order envNormal ⟨rfl, rfl, rfl, rfl⟩ 2
    (fun j hj => by simp [envNormal]; omega) rfl
    (INNER_ITERS + 2) (by simp [INNER_ITERS]) (le_refl _)
  have hB := C5_shutdown_order envNormalOom ⟨rfl, rfl, rfl, rfl⟩ 2
    (fun j hj => by simp [envNormalOom, envNormal]; omega) rfl
    (INNER_ITERS + 2) (by simp [INNER_ITERS]) (le_refl _)
  ⟨⟨rfl, rfl, rfl, rfl⟩, rfl, fun _ _ => ⟨rfl, rfl⟩,
   match hA.1 with
   | ⟨_, _, _, _, _, hret, _⟩ => by rw [hret (fun _ _ => ⟨rfl, rfl⟩)],
   ⟨rfl, rfl, rfl, rfl⟩, rfl, envNormalOom_failed, (hB.2 envNormalOom_failed).1⟩

/-- C6 as stated fails: with the vertex shader, the fragment shader and the
program all rejected and the window closed after two frames, but the first
allocation of the RAM worker failed, `main` does not return 0: it never
returns. The statuses play no part in it: with every shader accepted the run
ends in the same way. -/
theorem C6_counterexample :
    startupOk envShaderFailOom ∧ envShaderFailOom.shouldClose 2 = true ∧
    envShaderFailOom.gl.compileStatus (envShaderFailOom.createShader ShaderKind.vertex) = 0 ∧
    envShaderFailOom.gl.compileStatus (envShaderFailOom.createShader ShaderKind.fragment) = 0 ∧
    envShaderFailOom.gl.linkStatus envShaderFailOom.createProgram = 0 ∧
    (¬ ∃ fuel, (main envShaderFailOom fuel).2 = Outcome.returned 0) ∧
    ∀ fuel, INNER_ITERS + 2 ≤ fuel →
      (main envShaderFailOom fuel).2 = Outcome.joinPending Thread.ramThread ∧
      (main { envShaderFailOom with gl := glAllOk } fuel).2 =
        Outcome.joinPending Thread.ramThread := by
  refine ⟨⟨rfl, rfl, rfl, rfl⟩, rfl, rfl, rfl, rfl, ?_, ?_⟩
  · rintro ⟨fuel, hfuel⟩
    exact main_not_returned envShaderFailOom envShaderFailOom_failed fuel 0 hfuel
  · intro fuel hfuel
    have hmain := main_closed_hang envShaderFailOom fuel (1920, 1080) rfl rfl rfl rfl 2
      (fun j hj => by simp [envShaderFailOom, envNormal]; omega) rfl
      (by simp [INNER_ITERS] at hfuel; omega) envShaderFailOom_failed hfuel
    refine ⟨by rw [hmain], ?_⟩
    rw [main_outcome_gl envShaderFailOom glAllOk fuel, hmain]

/-- C6 (amended): the compile and link statuses never change how `main` ends
(for every environment and budget, replacing the driver's answers leaves the
outcome unchanged). Once GLFW, the window and GLEW are set up, for every
combination of statuses `main` creates and fills the vertex array and the
buffer and goes on to evaluate the condition of the render loop, and it can
only return 0. When the window is closed, `main` returns 0 if no allocation
of the RAM worker has failed before the worker sees the store of `false`, and
is blocked in `ramThread.join()` otherwise, for every combination of statuses
alike. -/
theorem C6_shader_failures_do_not_abort (env : Env) (hok : startupOk env)
    (fuel : Nat) (hfuel : 1 ≤ fuel) :
    (∀ (env2 : Env) (gl2 : GlDriver) (fuel2 : Nat),
      (main { env2 with gl := gl2 } fuel2).2 = (main env2 fuel2).2) ∧
    (∀ gl2 : GlDriver,
      [Event.call (Call.glGenVertexArrays 1 env.genVertexArray),
       Event.call (Call.glGenBuffers 1 env.genBuffer),
       Event.call (Call.glBindVertexArray env.genVertexArray),
       Event.call (Call.glBindBuffer env.genBuffer),
       Event.call (Call.glBufferData 48 [-1, 1, -1, -1, 1, -1, -1, 1, 1, -1, 1, 1]),
       Event.call (Call.glVertexAttribPointer 0 2 8 0),
       Event.call (Call.glEnableVertexAttribArray 0),
       Event.call (Call.glfwWindowShouldClose (env.shouldClose 0))]
        <:+: (main { env with gl := gl2 } fuel).1 ∧
      ∀ c, (main { env with gl := gl2 } fuel).2 = Outcome.returned c → c = 0) ∧
    (∀ (gl2 : GlDriver) (n : Nat), (∀ j, j < n → env.shouldClose j = false) →
      env.shouldClose n = true → n < fuel → INNER_ITERS + 2 ≤ fuel →
      (ramNeverFailed env → (main { env with gl := gl2 } fuel).2 = Outcome.returned 0) ∧
      (¬ ramNeverFailed env →
        (main { env with gl := gl2 } fuel).2 = Outcome.joinPending Thread.ramThread)) := by
  obtain ⟨h1, hm, h2, h3⟩ := hok
  obtain ⟨mode, hmode⟩ := isSome_videoMode env hm
  refine ⟨fun env2 gl2 fuel2 => main_outcome_gl env2 gl2 fuel2, fun gl2 => ?_,
    fun gl2 n hopen hclose hframes hbig => ⟨fun hram => ?_, fun hram => ?_⟩⟩
  · obtain ⟨⟨more, _, hshape⟩, hret⟩ :=
      main_started_shape { env with gl := gl2 } fuel mode h1 hmode h2 h3
    obtain ⟨rest, hhead⟩ := renderLoop_head { env with gl := gl2 } fuel hfuel
    refine ⟨?_, hret⟩
    rw [hshape, hhead]
    exact ⟨windowSetup { env with gl := gl2 } mode
        ++ [Event.call Call.glfwMakeContextCurrent, Event.call (Call.glewInit true)]
        ++ shaderSetup { env with gl := gl2 },
      rest ++ more, by simp [bufferSetup, vertices, SIZEOF_FLOAT, ATTRIB_SIZE, ATTRIB_STRIDE]⟩
  · rw [main_outcome_gl env gl2 fuel,
      main_closed env fuel mode h1 hmode h2 h3 n hopen hclose hframes hram hbig]
  · rw [main_outcome_gl env gl2 fuel,
      main_closed_hang env fuel mode h1 hmode h2 h3 n hopen hclose hframes hram hbig]

/-- Instance of C6 (amended): every shader is rejected, the window is closed
after two frames, no allocation fails. -/
theorem C6_shader_failures_do_not_abort_witness :
    startupOk envShaderFail ∧ ramNeverFailed envShaderFail ∧
    envShaderFail.gl.compileStatus (envShaderFail.createShader ShaderKind.fragment) = 0 ∧
    envShaderFail.gl.linkStatus envShaderFail.createProgram = 0 ∧
    (main envShaderFail (INNER_ITERS + 2)).2 = Outcome.returned 0 :=
  ⟨⟨rfl, rfl, rfl, rfl⟩, fun _ _ => ⟨rfl, rfl⟩, rfl, rfl,
   ((C6_shader_failures_do_not_abort envShaderFail ⟨rfl, rfl, rfl, rfl⟩
     (INNER_ITERS + 2) (by simp [INNER_ITERS])).2.2 glAllFail 2
     (fun j hj => by simp [envShaderFail, envNormal]; omega) rfl
     (by simp [INNER_ITERS]) (le_refl _)).1 (fun _ _ => ⟨rfl, rfl⟩)⟩

/-! ## The stop flags: claim C9 -/

/-- C9: both flags start as `true`. On every run of `main` that returns, the
flag writes are exactly one store of `false` to `cpuLoadRunning` and one store
of `false` to `ramLoadRunning`, and on no run is a flag written more than
once. No step of either worker writes a flag. Hence in any trace made of
events of the three threads, a flag that has become `false` stays `false`. -/
theorem C9_flags_written_once :
    (∀ f, flagInit f = true) ∧
    (∀ (env : Env) (fuel : Nat) (c : Int), (main env fuel).2 = Outcome.returned c →
      (main env fuel).1.filter Event.isStore =
        [Event.store Flag.cpuLoadRunning false, Event.store Flag.ramLoadRunning false]) ∧
    (∀ (env : Env) (fuel : Nat) (f : Flag),
      ((main env fuel).1.filter (Event.isStoreTo f)).length ≤ 1) ∧
    (∀ (flag : Bool) (s : CpuPc) (g : Flag) (w : Bool), Event.store g w ∉ (cpuStep flag s).2) ∧
    (∀ (m : Memory) (flag : Bool) (s : RamState) (g : Flag) (w : Bool),
      Event.store g w ∉ (ramStep m flag s).2) ∧
    (∀ (env : Env) (fuel : Nat) (tr : List Event),
      (∀ e, e ∈ tr → e ∈ (main env fuel).1 ∨
        (∃ flag s, e ∈ (cpuStep flag s).2) ∨ (∃ m flag s, e ∈ (ramStep m flag s).2)) →
      ∀ (f : Flag) (pre post : List Event), tr = pre ++ post →
        flagAfter f (flagInit f) pre = false → flagAfter f (flagInit f) tr = false) := by
  refine ⟨fun _ => rfl, ?_, ?_, cpuStep_noStore, ramStep_noStore, ?_⟩
  · intro env fuel c hc
    rcases main_stores env fuel with ⟨_, hne⟩ | h
    · exact absurd hc (hne c)
    · exact h
  · intro env fuel f
    have hsub : (main env fuel).1.filter (Event.isStoreTo f) =
        ((main env fuel).1.filter Event.isStore).filter (Event.isStoreTo f) := by
      rw [List.filter_filter]
      congr 1
      funext e
      cases e <;> simp [Event.isStoreTo, Event.isStore]
    rw [hsub]
    rcases main_stores env fuel with ⟨h0, _⟩ | h
    · rw [h0]; simp
    · rw [h]
      cases f <;> simp [List.filter, Event.isStoreTo]
  · intro env fuel tr htr f pre post hsplit hpre
    rw [hsplit]
    apply flagAfter_mono f pre post _ _ hpre
    intro g w hw
    have hmem : Event.store g w ∈ tr := by rw [hsplit]; exact List.mem_append_right _ hw
    rcases htr _ hmem with h | ⟨flag, s, h⟩ | ⟨m, flag, s, h⟩
    · exact main_store_false env fuel g w h
    · exact absurd h (cpuStep_noStore flag s g w)
    · exact absurd h (ramStep_noStore m flag s g w)

/-- Instance of C9: on the normal shutdown of `envNormal` the flag writes are
the two stores of `false`. -/
theorem C9_flags_written_once_witness :
    (main envNormal (INNER_ITERS + 2)).2 = Outcome.returned 0 ∧
    (main envNormal (INNER_ITERS + 2)).1.filter Event.isStore =
      [Event.store Flag.cpuLoadRunning false, Event.store Flag.ramLoadRunning false] :=
  have hret : (main envNormal (INNER_ITERS + 2)).2 = Outcome.returned 0 := by
    rw [main_closed envNormal (INNER_ITERS + 2) (1920, 1080) rfl rfl rfl rfl 2
      (fun j hj => by simp [envNormal]; omega) rfl (by simp [INNER_ITERS])
      (fun _ _ => ⟨rfl, rfl⟩) (le_refl _)]
  ⟨hret, C9_flags_written_once.2.1 envNormal (INNER_ITERS + 2) 0 hret⟩

/-! ## Shader diagnostics: claim C7 -/

theorem readInfoLog_short (log : List UInt8) (h : log.length < INFO_LOG_SIZE)
    (hz : ∀ b, b ∈ log → b ≠ 0) : readInfoLog INFO_LOG_SIZE log = log := by
  unfold readInfoLog
  have hl : log.length ≤ INFO_LOG_SIZE - 1 := by omega
  rw [List.take_of_length_le hl, List.takeWhile_eq_self_iff]
  intro b hb
  simpa using hz b hb

theorem readInfoLog_bound (log : List UInt8) :
    (readInfoLog INFO_LOG_SIZE log).length ≤ 1023 ∧ readInfoLog INFO_LOG_SIZE log <+: log := by
  unfold readInfoLog
  constructor
  · have h1 := (List.takeWhile_prefix (fun b : UInt8 => decide (b ≠ 0))
      (l := log.take (INFO_LOG_SIZE - 1))).length_le
    have h2 := List.length_take_le (INFO_LOG_SIZE - 1) log
    have h3 : INFO_LOG_SIZE - 1 = 1023 := rfl
    omega
  · exact (List.takeWhile_prefix _).trans (List.take_prefix _ _)

/-- C7: `checkCompileErrors(object, type)` writes to `std::cerr` exactly when the
status it queries is 0 (the compile status when `type` is not "PROGRAM", the
link status when it is), and writes nothing otherwise. What it writes is a
single text made of a header, the bytes of `type`, a newline, the content of
`infoLog` and the separator line with the newline of `std::endl`; `infoLog`
holds the bytes of the driver's log that fit the buffer, at most 1023, that is
the whole log when it is shorter than 1024 bytes. -/
theorem C7_checkCompileErrors_diagnostic (gl : GlDriver) (object : Nat) (type : String) :
    (type ≠ "PROGRAM" →
      (errOutput (checkCompileErrors gl object type) ≠ [] ↔ gl.compileStatus object = 0) ∧
      errOutput (checkCompileErrors gl object type) =
        if gl.compileStatus object = 0 then
          [cstr "ERROR::SHADER_COMPILATION_ERROR of type: " ++ cstr type ++ cstr "\n"
            ++ readInfoLog 1024 (gl.shaderInfoLog object)
            ++ (cstr "\n----------------------------------------" ++ cstr "\n")]
        else []) ∧
    (type = "PROGRAM" →
      (errOutput (checkCompileErrors gl object type) ≠ [] ↔ gl.linkStatus object = 0) ∧
      errOutput (checkCompileErrors gl object type) =
        if gl.linkStatus object = 0 then
          [cstr "ERROR::PROGRAM_LINKING_ERROR of type: " ++ cstr type ++ cstr "\n"
            ++ readInfoLog 1024 (gl.programInfoLog object)
            ++ (cstr "\n----------------------------------------" ++ cstr "\n")]
        else []) ∧
    (∀ d, d ∈ errOutput (checkCompileErrors gl object type) →
      ∃ header, d = header ++ cstr type ++ cstr "\n" ++ infoLogOf gl object type
        ++ (cstr "\n----------------------------------------" ++ cstr "\n")) ∧
    (∀ log : List UInt8, log.length < 1024 → (∀ b, b ∈ log → b ≠ 0) →
      readInfoLog 1024 log = log) ∧
    (∀ log : List UInt8,
      (readInfoLog 1024 log).length ≤ 1023 ∧ readInfoLog 1024 log <+: log) ∧
    "VERTEX" ≠ "PROGRAM" ∧ "FRAGMENT" ≠ "PROGRAM" := by
  refine ⟨?_, ?_, ?_, fun log h hz => readInfoLog_short log h hz,
    fun log => readInfoLog_bound log, by decide, by decide⟩
  · intro ht
    by_cases hs : gl.compileStatus object = 0 <;>
      simp [checkCompileErrors, ht, hs, errOutput, TRAILER, COMPILE_HEADER, INFO_LOG_SIZE]
  · intro ht
    by_cases hs : gl.linkStatus object = 0 <;>
      simp [checkCompileErrors, ht, hs, errOutput, TRAILER, LINK_HEADER, INFO_LOG_SIZE]
  · intro d hd
    by_cases ht : type ≠ "PROGRAM"
    · by_cases hs : gl.compileStatus object = 0
      · refine ⟨COMPILE_HEADER, ?_⟩
        simp [checkCompileErrors, ht, hs, errOutput] at hd
        simp [hd, infoLogOf, ht, TRAILER]
      · simp [checkCompileErrors, ht, hs, errOutput] at hd
    · by_cases hs : gl.linkStatus object = 0
      · refine ⟨LINK_HEADER, ?_⟩
        simp [checkCompileErrors, ht, hs, errOutput] at hd
        simp [hd, infoLogOf, ht, TRAILER]
      · simp [checkCompileErrors, ht, hs, errOutput] at hd

/-- Instance of C7: a rejected vertex shader. -/
theorem C7_checkCompileErrors_diagnostic_witness :
    "VERTEX" ≠ "PROGRAM" ∧ glAllFail.compileStatus 1 = 0 ∧
    errOutput (checkCompileErrors glAllFail 1 "VERTEX") =
      [cstr "ERROR::SHADER_COMPILATION_ERROR of type: " ++ cstr "VERTEX" ++ cstr "\n"
        ++ readInfoLog 1024 (cstr "0:1: syntax error")
        ++ (cstr "\n----------------------------------------" ++ cstr "\n")] :=
  ⟨by decide, rfl,
   ((C7_checkCompileErrors_diagnostic glAllFail 1 "VERTEX").1 (by decide)).2.trans
     (if_pos rfl)⟩

/-! ## The picture: claims C8 and C10 -/

/-- C10: the vertex data are 12 floats, read as 6 vertices of 2 components with
a stride of 2 floats and drawn with count 6; every vertex is one of the four
corners (+-1, +-1) and all four corners occur; the triangles of vertices 0-2
and 3-5 together cover every point of the square [-1,1] x [-1,1], and a point
lies in both exactly when it is on the diagonal from (-1,1) to (1,-1); the
vertex stage maps a position (x, y) to (x, y, 0, 1). -/
theorem C10_fullscreen_quad :
    vertices.length = 12 ∧ DRAW_COUNT = 6 ∧ ATTRIB_SIZE = 2 ∧
    ATTRIB_STRIDE = 2 * SIZEOF_FLOAT ∧ vertices.length = DRAW_COUNT * ATTRIB_SIZE ∧
    drawnVertices = [(-1, 1), (-1, -1), (1, -1), (-1, 1), (1, -1), (1, 1)] ∧
    drawnVertices.length = 6 ∧
    (∀ v, v ∈ drawnVertices → (v.1 = 1 ∨ v.1 = -1) ∧ (v.2 = 1 ∨ v.2 = -1)) ∧
    (∀ x y : Int, (x = 1 ∨ x = -1) → (y = 1 ∨ y = -1) → (x, y) ∈ drawnVertices) ∧
    (∀ (K : Type) [LinearOrderedField K] (p : K × K),
      -1 ≤ p.1 → p.1 ≤ 1 → -1 ≤ p.2 → p.2 ≤ 1 →
        inDrawnTriangle 0 p ∨ inDrawnTriangle 1 p) ∧
    (∀ (K : Type) [LinearOrderedField K] (p : K × K),
      (inDrawnTriangle 0 p ∧ inDrawnTriangle 1 p) ↔
        onSegment ((-1 : K), (1 : K)) ((1 : K), (-1 : K)) p) ∧
    (∀ (K : Type) [LinearOrderedField K] (x y : K),
      vertexMain (x, y) = (x, y, (0 : K), (1 : K))) := by
  refine ⟨rfl, rfl, rfl, rfl, rfl, by decide, rfl, by decide, ?_, ?_, ?_, fun _ _ _ _ => rfl⟩
  · rintro x y (rfl | rfl) (rfl | rfl) <;> decide
  · intro K _ p h1 h2 h3 h4
    rw [inDrawnTriangle_zero, inDrawnTriangle_one]
    rcases le_total (p.1 + p.2) 0 with h | h
    · exact Or.inl ⟨h1, h3, h⟩
    · exact Or.inr ⟨h2, h4, h⟩
  · intro K _ p
    rw [inDrawnTriangle_zero, inDrawnTriangle_one]
    constructor
    · rintro ⟨⟨h1, h2, h3⟩, ⟨h4, h5, h6⟩⟩
      refine ⟨(p.1 + 1) / 2, by linarith, by linarith, ?_, ?_⟩
      · ring
      · have : p.2 = -p.1 := by linarith
        rw [this]; ring
    · rintro ⟨t, ht0, ht1, hx, hy⟩
      simp only [] at hx hy
      refine ⟨⟨?_, ?_, ?_⟩, ⟨?_, ?_, ?_⟩⟩ <;> linarith

/-- Instance of C10: the centre of the screen lies in both triangles, the
corner (1, 1) in the second one. -/
theorem C10_fullscreen_quad_witness :
    (inDrawnTriangle 0 ((0 : ℚ), (0 : ℚ)) ∨ inDrawnTriangle 1 ((0 : ℚ), (0 : ℚ))) ∧
    (inDrawnTriangle 0 ((1 : ℚ), (1 : ℚ)) ∨ inDrawnTriangle 1 ((1 : ℚ), (1 : ℚ))) :=
  ⟨C10_fullscreen_quad.2.2.2.2.2.2.2.2.2.1 ℚ (0, 0) (by norm_num) (by norm_num) (by norm_num)
      (by norm_num),
   C10_fullscreen_quad.2.2.2.2.2.2.2.2.2.1 ℚ (1, 1) (by norm_num) (by norm_num) (by norm_num)
      (by norm_num)⟩

end HugeStressTest
